import Mathlib

/-!
Verification of the configuration parsing and validation engine of `inputd`
(`src/config.rs`).  The source is shallowly embedded: the untyped document
is an inductive value type, every section parser is a Lean function
faithful to the Rust control flow, and fallible code returns
`Except String`.  External crates (`toml`, `indexmap`, `linux_input`) are
modelled in clearly marked definitions.
-/

set_option maxHeartbeats 1000000

/-- Modelled from the spec: the untyped document values of the external TOML
library (strings, integers, booleans, arrays, tables).  A table is an ordered
list of key-value pairs; the library guarantees the keys of one table are
distinct. -/
inductive Toml where
  | str (s : String)
  | int (i : Int)
  | bool (b : Bool)
  | array (items : List Toml)
  | table (entries : List (String × Toml))

def Toml.as_str : Toml → Option String
  | .str s => some s
  | _ => none

def Toml.as_integer : Toml → Option Int
  | .int i => some i
  | _ => none

def Toml.as_bool : Toml → Option Bool
  | .bool b => some b
  | _ => none

def Toml.as_array : Toml → Option (List Toml)
  | .array items => some items
  | _ => none

def Toml.as_table : Toml → Option (List (String × Toml))
  | .table entries => some entries
  | _ => none

/-- Modelled from the spec: the textual rendering of a document value by the
external TOML library, used only inside diagnostics that no claim depends on. -/
def Toml.display : Toml → String
  | .str s => "\"" ++ s ++ "\""
  | .int i => toString i
  | .bool b => toString b
  | .array _ => "[...]"
  | .table _ => "\x7b...\x7d"

/-- `DeviceKind` from the source. -/
inductive DeviceKind where
  | keyboard
  | mouse
  | gamepad
deriving DecidableEq

/-- `DeviceKind::try_from_str` from the source. -/
def DeviceKind.try_from_str : String → Option DeviceKind
  | "keyboard" => some .keyboard
  | "mouse" => some .mouse
  | "gamepad" => some .gamepad
  | _ => none

/-- `DevicePreset` from the source. -/
inductive DevicePreset where
  | keyboard
  | mouse
deriving DecidableEq

/-- `DevicePreset::try_from_str` from the source. -/
def DevicePreset.try_from_str : String → Option DevicePreset
  | "keyboard" => some .keyboard
  | "mouse" => some .mouse
  | _ => none

/-- Modelled from the spec: the bus identifier kind of the external
`linux_input` crate, well-known symbolic variants plus an escape hatch for
unknown numeric codes. -/
inductive Bus where
  | usb
  | pci
  | bluetooth
  | other (code : Nat)
deriving DecidableEq

/-- Modelled from the spec: the symbolic-name lookup table for bus
identifiers of the external `linux_input` crate (a few representative
names; a string is resolved only by this table). -/
def Bus.try_from_str : String → Option Bus
  | "usb" => some .usb
  | "pci" => some .pci
  | "bluetooth" => some .bluetooth
  | _ => none

/-- Modelled from the spec: the key identifier kind of the external
`linux_input` crate. -/
inductive Key where
  | esc
  | enter
  | space
  | other (code : Nat)
deriving DecidableEq

/-- Modelled from the spec: the symbolic-name lookup table for key
identifiers of the external `linux_input` crate. -/
def Key.try_from_str : String → Option Key
  | "esc" => some .esc
  | "enter" => some .enter
  | "space" => some .space
  | _ => none

/-- Modelled from the spec: the relative-axis identifier kind of the
external `linux_input` crate. -/
inductive RelativeAxis where
  | x
  | y
  | wheel
  | other (code : Nat)
deriving DecidableEq

/-- Modelled from the spec: the symbolic-name lookup table for relative-axis
identifiers of the external `linux_input` crate. -/
def RelativeAxis.try_from_str : String → Option RelativeAxis
  | "x" => some .x
  | "y" => some .y
  | "wheel" => some .wheel
  | _ => none

/-- Modelled from the spec: the force-feedback identifier kind of the
external `linux_input` crate. -/
inductive ForceFeedback where
  | rumble
  | periodic
  | other (code : Nat)
deriving DecidableEq

/-- Modelled from the spec: the symbolic-name lookup table for force-feedback
identifiers of the external `linux_input` crate. -/
def ForceFeedback.try_from_str : String → Option ForceFeedback
  | "rumble" => some .rumble
  | "periodic" => some .periodic
  | _ => none

/-- Modelled from the spec: the absolute-axis identifier kind of the
external `linux_input` crate. -/
inductive AbsoluteAxis where
  | x
  | y
  | z
  | rx
  | ry
  | rz
  | other (code : Nat)
deriving DecidableEq

/-- Modelled from the spec: the symbolic-name lookup table for absolute-axis
identifiers of the external `linux_input` crate; the real table holds names
such as `x`, `y`, `rz` and contains no all-digit and no `0x`-prefixed key. -/
def AbsoluteAxis.try_from_str : String → Option AbsoluteAxis
  | "x" => some .x
  | "y" => some .y
  | "z" => some .z
  | "rx" => some .rx
  | "ry" => some .ry
  | "rz" => some .rz
  | _ => none

/-- `try_into_bus_value` from the source: a string goes through the symbolic
table only; an integer in `[0, 0xFFFF]` becomes `Bus::Other`; all else fails. -/
def try_into_bus_value (value : Toml) : Option Bus :=
  match value.as_str with
  | some s => Bus.try_from_str s
  | none =>
    match value.as_integer with
    | some i => if 0 ≤ i ∧ i ≤ 65535 then some (Bus.other i.toNat) else none
    | none => none

/-- `try_into_key_value` from the source. -/
def try_into_key_value (value : Toml) : Option Key :=
  match value.as_str with
  | some s => Key.try_from_str s
  | none =>
    match value.as_integer with
    | some i => if 0 ≤ i ∧ i ≤ 65535 then some (Key.other i.toNat) else none
    | none => none

/-- `try_into_rel_value` from the source. -/
def try_into_rel_value (value : Toml) : Option RelativeAxis :=
  match value.as_str with
  | some s => RelativeAxis.try_from_str s
  | none =>
    match value.as_integer with
    | some i => if 0 ≤ i ∧ i ≤ 65535 then some (RelativeAxis.other i.toNat) else none
    | none => none

/-- `try_into_ff_value` from the source. -/
def try_into_ff_value (value : Toml) : Option ForceFeedback :=
  match value.as_str with
  | some s => ForceFeedback.try_from_str s
  | none =>
    match value.as_integer with
    | some i => if 0 ≤ i ∧ i ≤ 65535 then some (ForceFeedback.other i.toNat) else none
    | none => none

/-- Rust `str::is_empty` over the character data. -/
def str_is_empty (s : String) : Bool := s.data.isEmpty

/-- Rust `u8::is_ascii_digit`, applied characterwise (a non-ASCII character
fails both the byte test of the source and this test). -/
def is_ascii_digit (c : Char) : Bool := 48 ≤ c.toNat && c.toNat ≤ 57

/-- Rust `string.bytes().all(|byte| byte.is_ascii_digit())`. -/
def str_all_ascii_digits (s : String) : Bool := s.data.all is_ascii_digit

/-- Numeric value of an all-digit string, as computed by Rust
`str::parse::<u16>` before its range check. -/
def decimal_value (s : String) : Nat :=
  s.data.foldl (fun acc c => 10 * acc + (c.toNat - 48)) 0

/-- Rust `string.starts_with("0x")`. -/
def starts_with_0x (s : String) : Bool :=
  match s.data with
  | '0' :: 'x' :: _ => true
  | _ => false

/-- Rust `&string[2..]` under the guard that the string starts with `0x`
(two one-byte characters, so byte and character indexing agree). -/
def str_drop2 (s : String) : String := String.mk (s.data.drop 2)

/-- Rust `char::to_digit(16)`. -/
def hex_digit_value (c : Char) : Option Nat :=
  if 48 ≤ c.toNat ∧ c.toNat ≤ 57 then some (c.toNat - 48)
  else if 97 ≤ c.toNat ∧ c.toNat ≤ 102 then some (c.toNat - 87)
  else if 65 ≤ c.toNat ∧ c.toNat ≤ 70 then some (c.toNat - 55)
  else none

/-- Base-16 accumulation of `u16::from_str_radix`; the checked accumulation
of the source fails exactly when the final value exceeds the type, which is
tested once at the end here. -/
def hex_accum : List Char → Nat → Option Nat
  | [], acc => some acc
  | c :: cs, acc =>
    match hex_digit_value c with
    | some d => hex_accum cs (16 * acc + d)
    | none => none

/-- Rust `u16::from_str_radix(s, 16)`: an optional leading plus sign, then a
non-empty run of hexadecimal digits whose value must fit in 16 bits; a minus
sign is not a hexadecimal digit and therefore fails. -/
def from_str_radix_16 (s : String) : Option Nat :=
  let ds : List Char :=
    match s.data with
    | '+' :: rest => rest
    | other => other
  if ds.isEmpty then none
  else
    match hex_accum ds 0 with
    | some v => if v ≤ 65535 then some v else none
    | none => none

/-- `try_into_abs_s` from the source: symbolic name first; else a non-empty
all-digit string is parsed as decimal `u16` (`str::parse` on such a string
succeeds exactly when the value fits 16 bits) and an out-of-range value
fails without trying the next tier; else a `0x`-prefixed string is parsed
as hexadecimal `u16`; anything else fails. -/
def try_into_abs_s (string : String) : Option AbsoluteAxis :=
  match AbsoluteAxis.try_from_str string with
  | some axis => some axis
  | none =>
    if !str_is_empty string && str_all_ascii_digits string then
      if decimal_value string ≤ 65535 then
        some (AbsoluteAxis.other (decimal_value string))
      else
        none
    else if !str_is_empty string && starts_with_0x string then
      match from_str_radix_16 (str_drop2 string) with
      | some axis => some (AbsoluteAxis.other axis)
      | none => none
    else
      none

/-- `DeviceFilter` from the source; 16-bit fields are `Nat`s whose range is
checked at parse time. -/
structure DeviceFilter where
  kind : Option DeviceKind
  bus : Option Bus
  vendor : Option Nat
  not_vendor : Option Nat
  product : Option Nat
  version : Option Nat
  name : Option String
  exclusive : Bool
  chmod : Option Nat
deriving DecidableEq

/-- `AbsoluteAxisBit` of the external `linux_input` crate.  Modelled from the
spec: one calibrated absolute axis; the calibration fields are signed 32-bit
integers, held as `Int` with the range checked at parse time. -/
structure AbsoluteAxisBit where
  axis : AbsoluteAxis
  initial_value : Int
  minimum : Int
  maximum : Int
  deadzone : Int
  noise_threshold : Int
  resolution : Int
deriving DecidableEq

/-- `VirtualDevice` from the source. -/
structure VirtualDevice where
  preset : Option DevicePreset
  bus : Option Bus
  vendor : Option Nat
  product : Option Nat
  version : Option Nat
  name : Option String
  chmod : Option Nat
  key_bits : List Key
  rel_bits : List RelativeAxis
  abs_bits : List AbsoluteAxisBit
  ff_bits : List ForceFeedback
  redirect_force_feedback_to : Option String
deriving DecidableEq

/-- `Script` from the source. -/
structure Script where
  device : String
  code : String
deriving DecidableEq

/-- `Config` from the source: the order-preserving maps are association
lists in insertion order. -/
structure Config where
  device_filters : List (String × DeviceFilter)
  virtual_devices : List (String × VirtualDevice)
  scripts : List Script
deriving DecidableEq

/-- Modelled from the spec: `IndexMap::insert` of the external `indexmap`
crate: an existing key keeps its position and receives the new value, a new
key is appended at the end. -/
def IndexMap.insert {α : Type} (m : List (String × α)) (k : String) (v : α) :
    List (String × α) :=
  if m.any (fun p => p.1 = k) then
    m.map (fun p => if p.1 = k then (k, v) else p)
  else
    m ++ [(k, v)]

/-- Modelled from the spec: `IndexMap::contains_key`. -/
def IndexMap.contains_key {α : Type} (m : List (String × α)) (k : String) : Bool :=
  m.any (fun p => p.1 = k)

/-- Modelled from the spec: `IndexMap` key lookup (first entry with the key;
maps built by `insert` have distinct keys). -/
def IndexMap.get? {α : Type} (m : List (String × α)) (k : String) : Option α :=
  (m.find? (fun p => p.1 = k)).map Prod.snd

/-- Rust `i64 -> u16` `try_into`. -/
def try_into_u16 (v : Int) : Option Nat :=
  if 0 ≤ v ∧ v ≤ 65535 then some v.toNat else none

/-- Rust `i64 -> i32` `try_into` (target width of the absolute-axis
calibration fields). -/
def try_into_i32 (v : Int) : Option Int :=
  if -2147483648 ≤ v ∧ v ≤ 2147483647 then some v else none

/-- The mutable locals of one `device-filter` entry parse. -/
structure DFAcc where
  internal_name : Option String
  name : Option String
  bus : Option Bus
  vendor : Option Nat
  not_vendor : Option Nat
  product : Option Nat
  version : Option Nat
  kind : Option DeviceKind
  exclusive : Option Bool
  chmod : Option Nat

def DFAcc.init : DFAcc := ⟨none, none, none, none, none, none, none, none, none, none⟩

/-- One iteration of the property loop of a `device-filter` entry
(source lines 235-287). -/
def df_apply_property (nth : Nat) (acc : DFAcc) (property_name : String) (item : Toml) :
    Except String DFAcc :=
  if property_name = "ref" then
    match item.as_str with
    | some s => .ok { acc with internal_name := some s }
    | none => .error ("\"device-filter." ++ toString nth ++ ".ref\" is not a string")
  else if property_name = "name" then
    match item.as_str with
    | some s => .ok { acc with name := some s }
    | none => .error ("\"device-filter." ++ toString nth ++ ".name\" is not a string")
  else if property_name = "bus" then
    match try_into_bus_value item with
    | some b => .ok { acc with bus := some b }
    | none => .error ("\"device-filter." ++ toString nth ++ ".bus\" has an invalid value")
  else if property_name = "vendor" then
    match item.as_integer with
    | none => .error ("\"device-filter." ++ toString nth ++ ".vendor\" is not an integer")
    | some i =>
      match try_into_u16 i with
      | some v => .ok { acc with vendor := some v }
      | none => .error ("\"device-filter." ++ toString nth ++ ".vendor\" is out of range")
  else if property_name = "not_vendor" then
    match item.as_integer with
    | none => .error ("\"device-filter." ++ toString nth ++ ".not_vendor\" is not an integer")
    | some i =>
      match try_into_u16 i with
      | some v => .ok { acc with not_vendor := some v }
      | none => .error ("\"device-filter." ++ toString nth ++ ".not_vendor\" is out of range")
  else if property_name = "product" then
    match item.as_integer with
    | none => .error ("\"device-filter." ++ toString nth ++ ".product\" is not an integer")
    | some i =>
      match try_into_u16 i with
      | some v => .ok { acc with product := some v }
      | none => .error ("\"device-filter." ++ toString nth ++ ".product\" is out of range")
  else if property_name = "version" then
    match item.as_integer with
    | none => .error ("\"device-filter." ++ toString nth ++ ".version\" is not an integer")
    | some i =>
      match try_into_u16 i with
      | some v => .ok { acc with version := some v }
      | none => .error ("\"device-filter." ++ toString nth ++ ".version\" is out of range")
  else if property_name = "kind" then
    match item.as_str with
    | none => .error ("\"device-filter." ++ toString nth ++ ".kind\" is not a string")
    | some s =>
      match DeviceKind.try_from_str s with
      | some k => .ok { acc with kind := some k }
      | none => .error ("key \"device-filter." ++ toString nth ++ ".kind\" has an invalid value")
  else if property_name = "exclusive" then
    match item.as_bool with
    | some b => .ok { acc with exclusive := some b }
    | none => .error ("\"device-filter." ++ toString nth ++ ".exclusive\" is not a boolean")
  else if property_name = "chmod" then
    match item.as_integer with
    | none => .error ("\"device-filter." ++ toString nth ++ ".chmod\" is not an integer")
    | some i =>
      match try_into_u16 i with
      | some v => .ok { acc with chmod := some v }
      | none => .error ("\"device-filter." ++ toString nth ++ ".chmod\" is out of range")
  else
    .error ("unrecognized key: \"device-filter." ++ toString nth ++ "." ++ property_name ++ "\"")

/-- Parse of one `device-filter` entry (source lines 221-308): the property
loop, then internal-name resolution (`ref`, else `name`, else failure). -/
def parse_device_filter_entry (nth : Nat) (item : Toml) :
    Except String (String × DeviceFilter) :=
  match item.as_table with
  | none => .error ("\"device-filter." ++ toString nth ++ "\" is not a table")
  | some tbl => do
    let acc ← tbl.foldlM (fun a kv => df_apply_property nth a kv.1 kv.2) DFAcc.init
    let internal_name ←
      match acc.internal_name with
      | some n => Except.ok n
      | none =>
        match acc.name with
        | some n => Except.ok n
        | none =>
          Except.error ("\"device-filter." ++ toString nth ++ "\" is missing an \x27ref\x27")
    Except.ok (internal_name,
      { kind := acc.kind, bus := acc.bus, vendor := acc.vendor,
        not_vendor := acc.not_vendor, product := acc.product, version := acc.version,
        name := acc.name, exclusive := acc.exclusive.getD false, chmod := acc.chmod })

/-- The `device-filter` section loop: each parsed entry is inserted into the
order-preserving map under its internal name. -/
def parse_device_filters (items : List Toml) (nth : Nat)
    (acc : List (String × DeviceFilter)) : Except String (List (String × DeviceFilter)) :=
  match items with
  | [] => .ok acc
  | item :: rest =>
    match parse_device_filter_entry nth item with
    | .error e => .error e
    | .ok (n, f) => parse_device_filters rest (nth + 1) (IndexMap.insert acc n f)

/-- The mutable locals of one absolute-axis sub-table parse. -/
structure AbsAcc where
  initial_value : Option Int
  minimum : Option Int
  maximum : Option Int
  noise_threshold : Option Int
  deadzone : Option Int
  resolution : Option Int

def AbsAcc.init : AbsAcc := ⟨none, none, none, none, none, none⟩

/-- Dotted diagnostic path of an absolute-axis sub-property. -/
def abs_sub_path (nth : Nat) (axis_name subproperty_name : String) : String :=
  "\"virtual-device." ++ toString nth ++ ".abs." ++ axis_name ++ "." ++ subproperty_name ++ "\""

/-- One iteration of the sub-property loop of an `abs` axis sub-table
(source lines 401-437). -/
def abs_apply_subproperty (nth : Nat) (axis_name : String) (acc : AbsAcc)
    (subproperty_name : String) (item : Toml) : Except String AbsAcc :=
  if subproperty_name = "initial-value" then
    match item.as_integer with
    | none => .error (abs_sub_path nth axis_name subproperty_name ++ " is not an integer")
    | some i =>
      match try_into_i32 i with
      | some v => .ok { acc with initial_value := some v }
      | none => .error (abs_sub_path nth axis_name subproperty_name ++ " is out of range")
  else if subproperty_name = "minimum" ∨ subproperty_name = "min" then
    match item.as_integer with
    | none => .error (abs_sub_path nth axis_name subproperty_name ++ " is not an integer")
    | some i =>
      match try_into_i32 i with
      | some v => .ok { acc with minimum := some v }
      | none => .error (abs_sub_path nth axis_name subproperty_name ++ " is out of range")
  else if subproperty_name = "maximum" ∨ subproperty_name = "max" then
    match item.as_integer with
    | none => .error (abs_sub_path nth axis_name subproperty_name ++ " is not an integer")
    | some i =>
      match try_into_i32 i with
      | some v => .ok { acc with maximum := some v }
      | none => .error (abs_sub_path nth axis_name subproperty_name ++ " is out of range")
  else if subproperty_name = "noise-threshold" then
    match item.as_integer with
    | none => .error (abs_sub_path nth axis_name subproperty_name ++ " is not an integer")
    | some i =>
      match try_into_i32 i with
      | some v => .ok { acc with noise_threshold := some v }
      | none => .error (abs_sub_path nth axis_name subproperty_name ++ " is out of range")
  else if subproperty_name = "deadzone" then
    match item.as_integer with
    | none => .error (abs_sub_path nth axis_name subproperty_name ++ " is not an integer")
    | some i =>
      match try_into_i32 i with
      | some v => .ok { acc with deadzone := some v }
      | none => .error (abs_sub_path nth axis_name subproperty_name ++ " is out of range")
  else if subproperty_name = "resolution" then
    match item.as_integer with
    | none => .error (abs_sub_path nth axis_name subproperty_name ++ " is not an integer")
    | some i =>
      match try_into_i32 i with
      | some v => .ok { acc with resolution := some v }
      | none => .error (abs_sub_path nth axis_name subproperty_name ++ " is out of range")
  else
    .error ("unrecognized key: \"virtual-device." ++ toString nth ++ ".abs." ++ axis_name
      ++ "." ++ subproperty_name ++ "\"")

/-- Parse of one `abs` axis entry (source lines 392-451): resolve the axis
key, read the sub-table, then build the record; `minimum` and `maximum` are
mandatory, `initial-value` defaults to `minimum`, the rest default to 0. -/
def parse_abs_axis (nth : Nat) (axis_name : String) (item : Toml) :
    Except String AbsoluteAxisBit :=
  match try_into_abs_s axis_name with
  | none =>
    .error ("\"virtual-device." ++ toString nth
      ++ ".abs\" contains an invalid absolute axis name: \x27" ++ axis_name ++ "\x27")
  | some axis =>
    match item.as_table with
    | none =>
      .error ("\"virtual-device." ++ toString nth ++ ".abs." ++ axis_name ++ "\" is not a table")
    | some tbl =>
      match tbl.foldlM (fun a kv => abs_apply_subproperty nth axis_name a kv.1 kv.2)
          AbsAcc.init with
      | .error e => .error e
      | .ok acc =>
        match acc.minimum with
        | none =>
          .error ("missing \"virtual-device." ++ toString nth ++ ".abs."
            ++ axis_name ++ ".minimum\"")
        | some minimum =>
          match acc.maximum with
          | none =>
            .error ("missing \"virtual-device." ++ toString nth ++ ".abs."
              ++ axis_name ++ ".maximum\"")
          | some maximum =>
            Except.ok
              { axis := axis,
                initial_value := acc.initial_value.getD minimum,
                minimum := minimum,
                maximum := maximum,
                deadzone := acc.deadzone.getD 0,
                noise_threshold := acc.noise_threshold.getD 0,
                resolution := acc.resolution.getD 0 }

/-- The loop over the keys of one `abs` table: one record is pushed per key. -/
def parse_abs_table (nth : Nat) : List (String × Toml) → Except String (List AbsoluteAxisBit)
  | [] => .ok []
  | (axis_name, item) :: rest =>
    match parse_abs_axis nth axis_name item with
    | .error e => .error e
    | .ok bit =>
      match parse_abs_table nth rest with
      | .error e => .error e
      | .ok bits => .ok (bit :: bits)

/-- The loop over a `keys` array (source lines 366-373). -/
def parse_key_array (nth : Nat) : List Toml → Except String (List Key)
  | [] => .ok []
  | item :: rest =>
    match try_into_key_value item with
    | none =>
      .error ("\"virtual-device." ++ toString nth ++ ".keys\" has an invalid value: \x27"
        ++ item.display ++ "\x27")
    | some k =>
      match parse_key_array nth rest with
      | .error e => .error e
      | .ok ks => .ok (k :: ks)

/-- The loop over a `rel` array (source lines 374-381). -/
def parse_rel_array (nth : Nat) : List Toml → Except String (List RelativeAxis)
  | [] => .ok []
  | item :: rest =>
    match try_into_rel_value item with
    | none =>
      .error ("\"virtual-device." ++ toString nth ++ ".rel\" has an invalid value: \x27"
        ++ item.display ++ "\x27")
    | some r =>
      match parse_rel_array nth rest with
      | .error e => .error e
      | .ok rs => .ok (r :: rs)

/-- The loop over a `force-feedback` array (source lines 382-389). -/
def parse_ff_array (nth : Nat) : List Toml → Except String (List ForceFeedback)
  | [] => .ok []
  | item :: rest =>
    match try_into_ff_value item with
    | none =>
      .error ("\"virtual-device." ++ toString nth
        ++ ".force-feedback\" has an invalid value: \x27" ++ item.display ++ "\x27")
    | some r =>
      match parse_ff_array nth rest with
      | .error e => .error e
      | .ok rs => .ok (r :: rs)

/-- The mutable locals of one `virtual-device` entry parse. -/
structure VDAcc where
  internal_name : Option String
  preset : Option DevicePreset
  name : Option String
  bus : Option Bus
  vendor : Option Nat
  product : Option Nat
  version : Option Nat
  chmod : Option Nat
  key_bits : List Key
  rel_bits : List RelativeAxis
  abs_bits : List AbsoluteAxisBit
  ff_bits : List ForceFeedback
  redirect_force_feedback_to : Option String

def VDAcc.init : VDAcc :=
  ⟨none, none, none, none, none, none, none, none, [], [], [], [], none⟩

/-- One iteration of the property loop of a `virtual-device` entry (source
lines 327-461).  The `keys`, `rel` and `force-feedback` arrays replace the
accumulated lists; the `abs` table appends its records to `abs_bits`. -/
def vd_apply_property (nth : Nat) (acc : VDAcc) (property_name : String) (item : Toml) :
    Except String VDAcc :=
  if property_name = "ref" then
    match item.as_str with
    | some s => .ok { acc with internal_name := some s }
    | none => .error ("\"virtual-device." ++ toString nth ++ ".ref\" is not a string")
  else if property_name = "preset" then
    match item.as_str with
    | none => .error ("\"virtual-device." ++ toString nth ++ ".preset\" is not a string")
    | some s =>
      match DevicePreset.try_from_str s with
      | some p => .ok { acc with preset := some p }
      | none => .error ("key \"virtual-device." ++ toString nth ++ ".preset\" has an invalid value")
  else if property_name = "bus" then
    match try_into_bus_value item with
    | some b => .ok { acc with bus := some b }
    | none => .error ("\"virtual-device." ++ toString nth ++ ".bus\" has an invalid value")
  else if property_name = "name" then
    match item.as_str with
    | some s => .ok { acc with name := some s }
    | none => .error ("\"virtual-device." ++ toString nth ++ ".name\" is not a string")
  else if property_name = "vendor" then
    match item.as_integer with
    | none => .error ("\"virtual-device." ++ toString nth ++ ".vendor\" is not an integer")
    | some i =>
      match try_into_u16 i with
      | some v => .ok { acc with vendor := some v }
      | none => .error ("\"virtual-device." ++ toString nth ++ ".vendor\" is out of range")
  else if property_name = "product" then
    match item.as_integer with
    | none => .error ("\"virtual-device." ++ toString nth ++ ".product\" is not an integer")
    | some i =>
      match try_into_u16 i with
      | some v => .ok { acc with product := some v }
      | none => .error ("\"virtual-device." ++ toString nth ++ ".product\" is out of range")
  else if property_name = "version" then
    match item.as_integer with
    | none => .error ("\"virtual-device." ++ toString nth ++ ".version\" is not an integer")
    | some i =>
      match try_into_u16 i with
      | some v => .ok { acc with version := some v }
      | none => .error ("\"virtual-device." ++ toString nth ++ ".version\" is out of range")
  else if property_name = "chmod" then
    match item.as_integer with
    | none => .error ("\"virtual-device." ++ toString nth ++ ".chmod\" is not an integer")
    | some i =>
      match try_into_u16 i with
      | some v => .ok { acc with chmod := some v }
      | none => .error ("\"virtual-device." ++ toString nth ++ ".chmod\" is out of range")
  else if property_name = "keys" then
    match item.as_array with
    | none => .error ("\"virtual-device." ++ toString nth ++ ".keys\" is not an array")
    | some items =>
      match parse_key_array nth items with
      | .error e => .error e
      | .ok ks => .ok { acc with key_bits := ks }
  else if property_name = "rel" then
    match item.as_array with
    | none => .error ("\"virtual-device." ++ toString nth ++ ".rel\" is not an array")
    | some items =>
      match parse_rel_array nth items with
      | .error e => .error e
      | .ok rs => .ok { acc with rel_bits := rs }
  else if property_name = "force-feedback" then
    match item.as_array with
    | none => .error ("\"virtual-device." ++ toString nth ++ ".force-feedback\" is not an array")
    | some items =>
      match parse_ff_array nth items with
      | .error e => .error e
      | .ok fs => .ok { acc with ff_bits := fs }
  else if property_name = "abs" then
    match item.as_table with
    | none => .error ("\"virtual-device." ++ toString nth ++ ".abs\" is not a table")
    | some tbl =>
      match parse_abs_table nth tbl with
      | .error e => .error e
      | .ok bits => .ok { acc with abs_bits := acc.abs_bits ++ bits }
  else if property_name = "redirect-force-feedback-to" then
    match item.as_str with
    | some s => .ok { acc with redirect_force_feedback_to := some s }
    | none =>
      .error ("\"virtual-device." ++ toString nth
        ++ ".redirect-force-feedback-to\" is not a string")
  else
    .error ("unrecognized key: \"virtual-device." ++ toString nth ++ "." ++ property_name ++ "\"")

/-- Parse of one `virtual-device` entry (source lines 312-485). -/
def parse_virtual_device_entry (nth : Nat) (item : Toml) :
    Except String (String × VirtualDevice) :=
  match item.as_table with
  | none => .error ("\"virtual-device." ++ toString nth ++ "\" is not a table")
  | some tbl => do
    let acc ← tbl.foldlM (fun a kv => vd_apply_property nth a kv.1 kv.2) VDAcc.init
    let internal_name ←
      match acc.internal_name with
      | some n => Except.ok n
      | none =>
        match acc.name with
        | some n => Except.ok n
        | none =>
          Except.error ("\"virtual-device." ++ toString nth ++ "\" is missing an \x27ref\x27")
    Except.ok (internal_name,
      { preset := acc.preset, bus := acc.bus, vendor := acc.vendor,
        product := acc.product, version := acc.version, name := acc.name,
        chmod := acc.chmod, key_bits := acc.key_bits, rel_bits := acc.rel_bits,
        abs_bits := acc.abs_bits, ff_bits := acc.ff_bits,
        redirect_force_feedback_to := acc.redirect_force_feedback_to })

/-- The `virtual-device` section loop. -/
def parse_virtual_devices (items : List Toml) (nth : Nat)
    (acc : List (String × VirtualDevice)) : Except String (List (String × VirtualDevice)) :=
  match items with
  | [] => .ok acc
  | item :: rest =>
    match parse_virtual_device_entry nth item with
    | .error e => .error e
    | .ok (n, v) => parse_virtual_devices rest (nth + 1) (IndexMap.insert acc n v)

/-- One iteration of the property loop of a `script` entry; the accumulator
is the pair of the `device` and `script` locals. -/
def sc_apply_property (nth : Nat) (acc : Option String × Option String)
    (property_name : String) (item : Toml) : Except String (Option String × Option String) :=
  if property_name = "device" then
    match item.as_str with
    | some s => .ok (some s, acc.2)
    | none => .error ("\"script.\x27" ++ toString nth ++ "\x27.device\" is not a string")
  else if property_name = "script" then
    match item.as_str with
    | some s => .ok (acc.1, some s)
    | none => .error ("\"script.\x27" ++ toString nth ++ "\x27.script\" is not a string")
  else
    .error ("unrecognized key: \"script." ++ toString nth ++ "." ++ property_name ++ "\"")

/-- Parse of one `script` entry (source lines 489-516): both `device` and
`script` are mandatory. -/
def parse_script_entry (nth : Nat) (item : Toml) : Except String Script :=
  match item.as_table with
  | none => .error ("\"script." ++ toString nth ++ "\" is not a table")
  | some tbl => do
    let acc ← tbl.foldlM (fun a kv => sc_apply_property nth a kv.1 kv.2) (none, none)
    let device ←
      match acc.1 with
      | some d => Except.ok d
      | none => Except.error ("missing \"script." ++ toString nth ++ ".device\"")
    let code ←
      match acc.2 with
      | some c => Except.ok c
      | none => Except.error ("missing \"script." ++ toString nth ++ ".script\"")
    Except.ok { device := device, code := code }

/-- The `script` section loop: parsed scripts are pushed in order. -/
def parse_scripts (items : List Toml) (nth : Nat) (acc : List Script) :
    Except String (List Script) :=
  match items with
  | [] => .ok acc
  | item :: rest =>
    match parse_script_entry nth item with
    | .error e => .error e
    | .ok s => parse_scripts rest (nth + 1) (acc ++ [s])

/-- The three collections being built during a load. -/
structure LoadState where
  device_filters : List (String × DeviceFilter)
  virtual_devices : List (String × VirtualDevice)
  scripts : List Script
deriving DecidableEq

def LoadState.init : LoadState := ⟨[], [], []⟩

/-- The top-level dispatch loop of `load_from_file` (source lines 217-520):
each root key is dispatched to its section parser and any other key is a
hard error.  The `virtual-device` array-shape diagnostic says "is not a
table", exactly as in the source. -/
def load_sections : List (String × Toml) → LoadState → Except String LoadState
  | [], st => .ok st
  | (toplevel_key, item) :: rest, st =>
    if toplevel_key = "device-filter" then
      match item.as_array with
      | none => .error "\"device-filter\" is not an array"
      | some items =>
        match parse_device_filters items 0 st.device_filters with
        | .error e => .error e
        | .ok df => load_sections rest { st with device_filters := df }
    else if toplevel_key = "virtual-device" then
      match item.as_array with
      | none => .error "\"virtual-device\" is not a table"
      | some items =>
        match parse_virtual_devices items 0 st.virtual_devices with
        | .error e => .error e
        | .ok vd => load_sections rest { st with virtual_devices := vd }
    else if toplevel_key = "script" then
      match item.as_array with
      | none => .error "\"script\" is not an array"
      | some items =>
        match parse_scripts items 0 st.scripts with
        | .error e => .error e
        | .ok sc => load_sections rest { st with scripts := sc }
    else
      .error ("unrecognized key: \"" ++ toplevel_key ++ "\"")

/-- The script cross-reference loop (source lines 522-526): fail on the
first script whose `device` names no device filter. -/
def validate_scripts (device_filters : List (String × DeviceFilter)) :
    List Script → Except String Unit
  | [] => .ok ()
  | s :: rest =>
    if IndexMap.contains_key device_filters s.device then
      validate_scripts device_filters rest
    else
      .error ("[[script]] refers to a non-existing device filter: \"" ++ s.device ++ "\"")

/-- The virtual-device cross-reference loop (source lines 528-538): for each
virtual device in order, first the name-collision check, then the
redirect-target check. -/
def validate_virtual_devices (device_filters : List (String × DeviceFilter)) :
    List (String × VirtualDevice) → Except String Unit
  | [] => .ok ()
  | (virtual_device_name, virtual_device) :: rest =>
    if IndexMap.contains_key device_filters virtual_device_name then
      .error ("same name used as a device filter and a virtual device: \""
        ++ virtual_device_name ++ "\"")
    else
      match virtual_device.redirect_force_feedback_to with
      | some target =>
        if !IndexMap.contains_key device_filters target then
          .error ("[[virtual-device]]\x27s \x27redirect-force-feedback-to\x27 refers to a "
            ++ "non-existing device filter: \"" ++ target ++ "\"")
        else
          validate_virtual_devices device_filters rest
      | none => validate_virtual_devices device_filters rest

/-- `load_from_file` after the document parse: section dispatch, then the
cross-reference validation, then the aggregate `Config`. -/
def load_from_table (tbl : List (String × Toml)) : Except String Config :=
  match load_sections tbl LoadState.init with
  | .error e => .error e
  | .ok st =>
    match validate_scripts st.device_filters st.scripts with
    | .error e => .error e
    | .ok _ =>
      match validate_virtual_devices st.device_filters st.virtual_devices with
      | .error e => .error e
      | .ok _ =>
        .ok { device_filters := st.device_filters,
              virtual_devices := st.virtual_devices,
              scripts := st.scripts }

/-- `load_from_file` on a parsed document: `doc.as_table().unwrap()` is the
sole potential panic, modelled as the `none` result. -/
def load_from_doc (doc : Toml) : Option (Except String Config) :=
  match doc.as_table with
  | none => none
  | some tbl => some (load_from_table tbl)

/-- The `device-filter` section as the ordered list of its parsed entries
(used to state order and last-write-wins properties of the insert fold). -/
def parse_df_entries : List Toml → Nat → Except String (List (String × DeviceFilter))
  | [], _ => .ok []
  | item :: rest, nth =>
    match parse_device_filter_entry nth item with
    | .error e => .error e
    | .ok e =>
      match parse_df_entries rest (nth + 1) with
      | .error e2 => .error e2
      | .ok es => .ok (e :: es)

/-- The `virtual-device` section as the ordered list of its parsed entries. -/
def parse_vd_entries : List Toml → Nat → Except String (List (String × VirtualDevice))
  | [], _ => .ok []
  | item :: rest, nth =>
    match parse_virtual_device_entry nth item with
    | .error e => .error e
    | .ok e =>
      match parse_vd_entries rest (nth + 1) with
      | .error e2 => .error e2
      | .ok es => .ok (e :: es)

/-- The `script` section as the ordered list of its parsed entries. -/
def parse_sc_entries : List Toml → Nat → Except String (List Script)
  | [], _ => .ok []
  | item :: rest, nth =>
    match parse_script_entry nth item with
    | .error e => .error e
    | .ok e =>
      match parse_sc_entries rest (nth + 1) with
      | .error e2 => .error e2
      | .ok es => .ok (e :: es)

/-- The empty device filter produced by an entry that only sets `ref`. -/
def df_empty : DeviceFilter := ⟨none, none, none, none, none, none, none, false, none⟩

/-- The empty virtual device produced by an entry that only sets `ref`. -/
def vd_empty : VirtualDevice := ⟨none, none, none, none, none, none, none, [], [], [], [], none⟩

/-- A document whose one virtual device spells axis code 0 twice in its `abs`
table, once as the decimal key `0` and once as the hexadecimal key `0x0`. -/
def c1doc : Toml :=
  Toml.table [("virtual-device", Toml.array [Toml.table [("ref", Toml.str "V"),
    ("abs", Toml.table [
      ("0", Toml.table [("minimum", Toml.int 0), ("maximum", Toml.int 255)]),
      ("0x0", Toml.table [("minimum", Toml.int 1), ("maximum", Toml.int 2)])])]])]

/-- The virtual device the load builds for `c1doc`: two absolute-axis records
with the same axis code. -/
def c1vd : VirtualDevice :=
  ⟨none, none, none, none, none, none, none, [], [],
    [⟨AbsoluteAxis.other 0, 0, 0, 255, 0, 0, 0⟩, ⟨AbsoluteAxis.other 0, 1, 1, 2, 0, 0, 0⟩],
    [], none⟩

def c1cfg : Config := ⟨[], [("V", c1vd)], []⟩

/-- First of two `device-filter` entries sharing the internal name `X`. -/
def c5e1 : Toml := Toml.table [("ref", Toml.str "X"), ("vendor", Toml.int 1)]

/-- Second `device-filter` entry named `X`, setting every recognized key. -/
def c5e2 : Toml := Toml.table [("ref", Toml.str "X"), ("name", Toml.str "N2"),
  ("bus", Toml.int 3), ("vendor", Toml.int 2), ("not_vendor", Toml.int 3),
  ("product", Toml.int 4), ("version", Toml.int 5), ("kind", Toml.str "mouse"),
  ("exclusive", Toml.bool true), ("chmod", Toml.int 6)]

/-- The filter built entirely from the second entry. -/
def c5later : DeviceFilter :=
  ⟨some DeviceKind.mouse, some (Bus.other 3), some 2, some 3, some 4, some 5,
    some "N2", true, some 6⟩

def c5doc : Toml := Toml.table [("device-filter", Toml.array [c5e1, c5e2])]

def c5cfg : Config := ⟨[("X", c5later)], [], []⟩

/-- A document whose script references a non-existing device filter. -/
def c7bad_tbl : List (String × Toml) :=
  [("device-filter", Toml.array [Toml.table [("ref", Toml.str "F")]]),
   ("script", Toml.array [Toml.table [("device", Toml.str "nosuch"),
     ("script", Toml.str "body")]])]

/-- The same document with the reference fixed. -/
def c7good_tbl : List (String × Toml) :=
  [("device-filter", Toml.array [Toml.table [("ref", Toml.str "F")]]),
   ("script", Toml.array [Toml.table [("device", Toml.str "F"),
     ("script", Toml.str "body")]])]

def c7good_cfg : Config := ⟨[("F", df_empty)], [], [⟨"F", "body"⟩]⟩

/-- A document declaring the same internal name as a filter and as a virtual
device. -/
def c8bad_tbl : List (String × Toml) :=
  [("device-filter", Toml.array [Toml.table [("ref", Toml.str "X")]]),
   ("virtual-device", Toml.array [Toml.table [("ref", Toml.str "X")]])]

/-- The same document with distinct names. -/
def c8good_tbl : List (String × Toml) :=
  [("device-filter", Toml.array [Toml.table [("ref", Toml.str "F")]]),
   ("virtual-device", Toml.array [Toml.table [("ref", Toml.str "V")]])]

def c8good_cfg : Config := ⟨[("F", df_empty)], [("V", vd_empty)], []⟩

/-- The virtual device named `A` carrying a dangling redirect target. -/
def c2vdA : VirtualDevice :=
  ⟨none, none, none, none, none, none, none, [], [], [], [], some "nosuch"⟩

/-- A document with a dangling `redirect-force-feedback-to` on its first
virtual device and a name collision on its second. -/
def c2tbl : List (String × Toml) :=
  [("device-filter", Toml.array [Toml.table [("ref", Toml.str "X")]]),
   ("virtual-device", Toml.array [
     Toml.table [("ref", Toml.str "A"),
       ("redirect-force-feedback-to", Toml.str "nosuch")],
     Toml.table [("ref", Toml.str "X")]])]

def c2doc : Toml := Toml.table c2tbl

/-- The state parsed from `c2tbl` before cross-reference validation. -/
def c2st : LoadState := ⟨[("X", df_empty)], [("A", c2vdA), ("X", vd_empty)], []⟩

def c2_redirect_msg : String :=
  "[[virtual-device]]\x27s \x27redirect-force-feedback-to\x27 refers to a non-existing device filter: \"nosuch\""

def c2_collision_msg : String :=
  "same name used as a device filter and a virtual device: \"X\""

/-- The `device-filter` entries of the order witness, deliberately not in
alphabetical order. -/
def c6df_items : List Toml :=
  [Toml.table [("ref", Toml.str "B")], Toml.table [("ref", Toml.str "A")]]

def c6sc_items : List Toml :=
  [Toml.table [("device", Toml.str "B"), ("script", Toml.str "s1")],
   Toml.table [("device", Toml.str "A"), ("script", Toml.str "s2")]]

def c6vd_items : List Toml :=
  [Toml.table [("ref", Toml.str "W")], Toml.table [("ref", Toml.str "V")]]

def c6tbl : List (String × Toml) :=
  [("device-filter", Toml.array c6df_items),
   ("script", Toml.array c6sc_items),
   ("virtual-device", Toml.array c6vd_items)]

def c6cfg : Config :=
  ⟨[("B", df_empty), ("A", df_empty)], [("W", vd_empty), ("V", vd_empty)],
   [⟨"B", "s1"⟩, ⟨"A", "s2"⟩]⟩

/-- C3: absolute-axis table keys are resolved in exactly three tiers: a known
symbolic axis name wins; otherwise a non-empty all-ASCII-digit string is
parsed as an unsigned 16-bit decimal, failing without fallthrough when out of
range; otherwise a string starting with `0x` has its remainder parsed as
hexadecimal `u16`; any other string fails.  Concretely `0x1f` resolves to
axis 31, `15` to axis 15, `99999` fails, and an unknown non-numeric,
non-`0x`-prefixed key fails. -/
theorem c3_abs_key_resolution :
    (∀ s a, AbsoluteAxis.try_from_str s = some a → try_into_abs_s s = some a) ∧
    (∀ s, AbsoluteAxis.try_from_str s = none → str_is_empty s = false →
      str_all_ascii_digits s = true → decimal_value s ≤ 65535 →
      try_into_abs_s s = some (AbsoluteAxis.other (decimal_value s))) ∧
    (∀ s, AbsoluteAxis.try_from_str s = none → str_is_empty s = false →
      str_all_ascii_digits s = true → 65535 < decimal_value s →
      try_into_abs_s s = none) ∧
    (∀ s, AbsoluteAxis.try_from_str s = none → str_all_ascii_digits s = false →
      starts_with_0x s = true →
      try_into_abs_s s = Option.map AbsoluteAxis.other (from_str_radix_16 (str_drop2 s))) ∧
    (∀ s, AbsoluteAxis.try_from_str s = none → str_all_ascii_digits s = false →
      starts_with_0x s = false → try_into_abs_s s = none) ∧
    try_into_abs_s "0x1f" = some (AbsoluteAxis.other 31) ∧
    try_into_abs_s "15" = some (AbsoluteAxis.other 15) ∧
    try_into_abs_s "99999" = none ∧
    try_into_abs_s "frobnicate" = none ∧
    (∀ nth axis_name item, try_into_abs_s axis_name = none →
      parse_abs_axis nth axis_name item =
        .error ("\"virtual-device." ++ toString nth
          ++ ".abs\" contains an invalid absolute axis name: \x27" ++ axis_name ++ "\x27")) := by
  refine ⟨?_, ?_, ?_, ?_, ?_, by decide, by decide, by decide, by decide, ?_⟩
  · intro s a h
    unfold try_into_abs_s
    rw [h]
  · intro s h1 h2 h3 h4
    unfold try_into_abs_s
    rw [h1]
    simp [h2, h3, h4]
  · intro s h1 h2 h3 h4
    unfold try_into_abs_s
    rw [h1]
    simp [h2, h3]
    omega
  · intro s h1 h2 h3
    have hne : str_is_empty s = false := by
      unfold starts_with_0x at h3
      unfold str_is_empty
      cases hd : s.data with
      | nil => rw [hd] at h3; simp at h3
      | cons c cs => simp
    unfold try_into_abs_s
    rw [h1]
    simp [h2, h3, hne]
    cases hfx : from_str_radix_16 (str_drop2 s) <;> simp
  · intro s h1 h2 h3
    unfold try_into_abs_s
    rw [h1]
    simp [h2, h3]
  · intro nth axis_name item h
    rw [parse_abs_axis, h]

/-- Witness for C3: the general tiers applied at concrete inputs. -/
theorem c3_abs_key_resolution_witness :
    try_into_abs_s "x" = some AbsoluteAxis.x ∧
    try_into_abs_s "255" = some (AbsoluteAxis.other 255) ∧
    try_into_abs_s "70000" = none ∧
    try_into_abs_s "0xff" = Option.map AbsoluteAxis.other (from_str_radix_16 (str_drop2 "0xff")) ∧
    try_into_abs_s "hat9q" = none ∧
    parse_abs_axis 0 "frobnicate" (Toml.table []) =
      Except.error "\"virtual-device.0.abs\" contains an invalid absolute axis name: \x27frobnicate\x27" :=
  ⟨c3_abs_key_resolution.1 "x" AbsoluteAxis.x (by decide),
   c3_abs_key_resolution.2.1 "255" (by decide) (by decide) (by decide) (by decide),
   c3_abs_key_resolution.2.2.1 "70000" (by decide) (by decide) (by decide) (by decide),
   c3_abs_key_resolution.2.2.2.1 "0xff" (by decide) (by decide) (by decide),
   c3_abs_key_resolution.2.2.2.2.1 "hat9q" (by decide) (by decide) (by decide),
   c3_abs_key_resolution.2.2.2.2.2.2.2.2.2 0 "frobnicate" (Toml.table []) (by decide)⟩

/-- C4: for each of the bus, key, relative-axis and force-feedback value
resolvers, an integer in `[0, 0xFFFF]` yields the unknown-numeric variant
holding exactly that value, an integer outside the range (such as `0x10000`
or `-1`) fails, a string is resolved only through the symbolic-name table
(never as an unknown numeric code), and any other value shape fails. -/
theorem c4_scalar_identifier_resolution :
    (∀ v : Int, 0 ≤ v → v ≤ 65535 →
      try_into_bus_value (Toml.int v) = some (Bus.other v.toNat) ∧
      try_into_key_value (Toml.int v) = some (Key.other v.toNat) ∧
      try_into_rel_value (Toml.int v) = some (RelativeAxis.other v.toNat) ∧
      try_into_ff_value (Toml.int v) = some (ForceFeedback.other v.toNat)) ∧
    (∀ v : Int, v < 0 ∨ 65535 < v →
      try_into_bus_value (Toml.int v) = none ∧
      try_into_key_value (Toml.int v) = none ∧
      try_into_rel_value (Toml.int v) = none ∧
      try_into_ff_value (Toml.int v) = none) ∧
    try_into_bus_value (Toml.int 65536) = none ∧
    try_into_bus_value (Toml.int (-1)) = none ∧
    try_into_key_value (Toml.int 65536) = none ∧
    try_into_key_value (Toml.int (-1)) = none ∧
    try_into_rel_value (Toml.int 65536) = none ∧
    try_into_rel_value (Toml.int (-1)) = none ∧
    try_into_ff_value (Toml.int 65536) = none ∧
    try_into_ff_value (Toml.int (-1)) = none ∧
    (∀ s, try_into_bus_value (Toml.str s) = Bus.try_from_str s ∧
      try_into_key_value (Toml.str s) = Key.try_from_str s ∧
      try_into_rel_value (Toml.str s) = RelativeAxis.try_from_str s ∧
      try_into_ff_value (Toml.str s) = ForceFeedback.try_from_str s) ∧
    (∀ b, try_into_bus_value (Toml.bool b) = none ∧
      try_into_key_value (Toml.bool b) = none ∧
      try_into_rel_value (Toml.bool b) = none ∧
      try_into_ff_value (Toml.bool b) = none) ∧
    (∀ items, try_into_bus_value (Toml.array items) = none ∧
      try_into_key_value (Toml.array items) = none ∧
      try_into_rel_value (Toml.array items) = none ∧
      try_into_ff_value (Toml.array items) = none) ∧
    (∀ entries, try_into_bus_value (Toml.table entries) = none ∧
      try_into_key_value (Toml.table entries) = none ∧
      try_into_rel_value (Toml.table entries) = none ∧
      try_into_ff_value (Toml.table entries) = none) := by
  refine ⟨?_, ?_, by decide, by decide, by decide, by decide, by decide, by decide,
    by decide, by decide, ?_, ?_, ?_, ?_⟩
  · intro v h0 h1
    refine ⟨?_, ?_, ?_, ?_⟩ <;>
      simp [try_into_bus_value, try_into_key_value, try_into_rel_value, try_into_ff_value,
        Toml.as_str, Toml.as_integer, h0, h1]
  · intro v h
    have hcond : ¬(0 ≤ v ∧ v ≤ 65535) := by omega
    refine ⟨?_, ?_, ?_, ?_⟩ <;>
      simp [try_into_bus_value, try_into_key_value, try_into_rel_value, try_into_ff_value,
        Toml.as_str, Toml.as_integer, hcond]
  · intro s
    exact ⟨rfl, rfl, rfl, rfl⟩
  · intro b
    exact ⟨rfl, rfl, rfl, rfl⟩
  · intro items
    exact ⟨rfl, rfl, rfl, rfl⟩
  · intro entries
    exact ⟨rfl, rfl, rfl, rfl⟩

/-- Witness for C4: the range rules applied at concrete integers and a
concrete string for every identifier kind. -/
theorem c4_scalar_identifier_resolution_witness :
    try_into_bus_value (Toml.int 7) = some (Bus.other 7) ∧
    try_into_key_value (Toml.int 65535) = some (Key.other 65535) ∧
    try_into_rel_value (Toml.int 0) = some (RelativeAxis.other 0) ∧
    try_into_ff_value (Toml.int 70000) = none := by
  refine ⟨?_, ?_, ?_, ?_⟩
  · exact (c4_scalar_identifier_resolution.1 7 (by decide) (by decide)).1
  · exact (c4_scalar_identifier_resolution.1 65535 (by decide) (by decide)).2.1
  · exact (c4_scalar_identifier_resolution.1 0 (by decide) (by decide)).2.2.1
  · exact (c4_scalar_identifier_resolution.2.1 70000 (by norm_num)).2.2.2

theorem im_find_map_insert {α : Type} (m : List (String × α)) (k : String) (v : α) :
    (m.map (fun p => if p.1 = k then (k, v) else p)).find? (fun p => p.1 = k) =
      if m.any (fun p => p.1 = k) then some (k, v) else none := by
  induction m with
  | nil => simp
  | cons p ps ih =>
    simp only [List.map_cons, List.any_cons]
    by_cases h : p.1 = k
    · rw [if_pos h]
      rw [List.find?_cons_of_pos _ (by simp)]
      simp [h]
    · rw [if_neg h]
      rw [List.find?_cons_of_neg _ (by simpa using h)]
      rw [ih]
      have hd : (decide (p.1 = k)) = false := decide_eq_false h
      simp only [hd, Bool.false_or]

theorem im_find_none_of_any_false {α : Type} (m : List (String × α)) (k : String)
    (h : m.any (fun p => p.1 = k) = false) :
    m.find? (fun p => p.1 = k) = none := by
  induction m with
  | nil => rfl
  | cons p ps ih =>
    simp only [List.any_cons, Bool.or_eq_false_iff] at h
    rw [List.find?]
    simp only [h.1]
    exact ih h.2

theorem find_append_of_none {α : Type} (m l : List α) (f : α → Bool)
    (h : m.find? f = none) : (m ++ l).find? f = l.find? f := by
  induction m with
  | nil => rfl
  | cons a as ih =>
    rw [List.find?] at h
    cases hfa : f a with
    | true => rw [hfa] at h; exact Option.noConfusion h
    | false =>
      rw [hfa] at h
      rw [List.cons_append, List.find?, hfa]
      exact ih h

theorem find_append_of_some {α : Type} (m l : List α) (f : α → Bool) (a : α)
    (h : m.find? f = some a) : (m ++ l).find? f = some a := by
  induction m with
  | nil => exact Option.noConfusion h
  | cons b bs ih =>
    rw [List.find?] at h
    cases hfb : f b with
    | true => rw [hfb] at h; rw [List.cons_append, List.find?, hfb]; exact h
    | false => rw [hfb] at h; rw [List.cons_append, List.find?, hfb]; exact ih h

theorem im_get_insert_self {α : Type} (m : List (String × α)) (k : String) (v : α) :
    IndexMap.get? (IndexMap.insert m k v) k = some v := by
  unfold IndexMap.insert IndexMap.get?
  by_cases h : m.any (fun p => p.1 = k) = true
  · rw [if_pos h, im_find_map_insert, if_pos h]
    rfl
  · rw [if_neg h]
    have hn : m.find? (fun p => p.1 = k) = none :=
      im_find_none_of_any_false m k (by revert h; cases m.any (fun p => p.1 = k) <;> simp)
    rw [find_append_of_none _ _ _ hn]
    simp [List.find?]

theorem im_find_map_insert_ne {α : Type} (m : List (String × α)) (k k2 : String) (v : α)
    (h : k2 ≠ k) :
    (m.map (fun p => if p.1 = k then (k, v) else p)).find? (fun p => p.1 = k2) =
      m.find? (fun p => p.1 = k2) := by
  induction m with
  | nil => rfl
  | cons p ps ih =>
    by_cases hpk : p.1 = k
    · have h1 : ¬((k, v).1 = k2) := fun hc => h hc.symm
      have h2 : ¬(p.1 = k2) := fun hc => h ((hc ▸ hpk : k2 = k))
      rw [List.map_cons, if_pos hpk]
      rw [List.find?_cons_of_neg _ (by simpa using h1)]
      rw [List.find?_cons_of_neg _ (by simpa using h2)]
      exact ih
    · rw [List.map_cons, if_neg hpk]
      by_cases hp2 : p.1 = k2
      · rw [List.find?_cons_of_pos _ (by simpa using hp2)]
        rw [List.find?_cons_of_pos _ (by simpa using hp2)]
      · rw [List.find?_cons_of_neg _ (by simpa using hp2)]
        rw [List.find?_cons_of_neg _ (by simpa using hp2)]
        exact ih

theorem im_get_insert_ne {α : Type} (m : List (String × α)) (k k2 : String) (v : α)
    (h : k2 ≠ k) : IndexMap.get? (IndexMap.insert m k v) k2 = IndexMap.get? m k2 := by
  unfold IndexMap.insert IndexMap.get?
  by_cases ha : m.any (fun p => p.1 = k) = true
  · rw [if_pos ha, im_find_map_insert_ne m k k2 v h]
  · rw [if_neg ha]
    cases hf : m.find? (fun p => p.1 = k2) with
    | some a => rw [find_append_of_some _ _ _ _ hf]
    | none =>
      rw [find_append_of_none _ _ _ hf]
      rw [List.find?_cons_of_neg _ (by simpa using fun hc : k = k2 => h hc.symm)]
      rfl

theorem im_insert_fresh {α : Type} (m : List (String × α)) (k : String) (v : α)
    (h : IndexMap.contains_key m k = false) :
    IndexMap.insert m k v = m ++ [(k, v)] := by
  unfold IndexMap.contains_key at h
  unfold IndexMap.insert
  rw [h]
  simp

theorem im_contains_append {α : Type} (m l : List (String × α)) (k : String) :
    IndexMap.contains_key (m ++ l) k =
      (IndexMap.contains_key m k || IndexMap.contains_key l k) := by
  unfold IndexMap.contains_key
  exact List.any_append

theorem fold_insert_skip {α : Type} (es : List (String × α)) (acc : List (String × α))
    (n : String) (h : ∀ e ∈ es, e.1 ≠ n) :
    IndexMap.get? (es.foldl (fun m e => IndexMap.insert m e.1 e.2) acc) n =
      IndexMap.get? acc n := by
  induction es generalizing acc with
  | nil => rfl
  | cons e rest ih =>
    rw [List.foldl_cons]
    rw [ih _ (fun x hx => h x (List.mem_cons_of_mem _ hx))]
    exact im_get_insert_ne acc e.1 n e.2 (fun hc => h e (List.mem_cons_self _ _) hc.symm)

theorem fold_insert_last {α : Type} (us vs : List (String × α)) (n : String) (f : α)
    (acc : List (String × α)) (h : ∀ e ∈ vs, e.1 ≠ n) :
    IndexMap.get? ((us ++ (n, f) :: vs).foldl (fun m e => IndexMap.insert m e.1 e.2) acc) n =
      some f := by
  induction us generalizing acc with
  | nil =>
    rw [List.nil_append, List.foldl_cons]
    rw [fold_insert_skip vs _ n h]
    exact im_get_insert_self acc n f
  | cons u us ih =>
    rw [List.cons_append, List.foldl_cons]
    exact ih _

theorem fold_insert_fresh {α : Type} (es : List (String × α)) (acc : List (String × α))
    (hnd : (es.map Prod.fst).Nodup)
    (hfresh : ∀ e ∈ es, IndexMap.contains_key acc e.1 = false) :
    es.foldl (fun m e => IndexMap.insert m e.1 e.2) acc = acc ++ es := by
  induction es generalizing acc with
  | nil => simp
  | cons e rest ih =>
    rw [List.foldl_cons]
    rw [im_insert_fresh _ _ _ (hfresh e (List.mem_cons_self _ _))]
    rw [List.map_cons, List.nodup_cons] at hnd
    have hf2 : ∀ x ∈ rest, IndexMap.contains_key (acc ++ [e]) x.1 = false := by
      intro x hx
      rw [im_contains_append]
      have h1 : IndexMap.contains_key acc x.1 = false := hfresh x (List.mem_cons_of_mem _ hx)
      have h2 : IndexMap.contains_key [e] x.1 = false := by
        unfold IndexMap.contains_key
        simp only [List.any_cons, List.any_nil, Bool.or_false, decide_eq_false_iff_not]
        intro hc
        exact hnd.1 (by rw [hc]; exact List.mem_map_of_mem Prod.fst hx)
      rw [h1, h2]
      rfl
    rw [ih (acc ++ [e]) hnd.2 hf2]
    simp

theorem parse_device_filters_eq (items : List Toml) (nth : Nat)
    (acc : List (String × DeviceFilter)) :
    parse_device_filters items nth acc =
      (parse_df_entries items nth).map
        (fun es => es.foldl (fun m e => IndexMap.insert m e.1 e.2) acc) := by
  induction items generalizing nth acc with
  | nil => rfl
  | cons item rest ih =>
    rw [parse_device_filters, parse_df_entries]
    cases parse_device_filter_entry nth item with
    | error e => rfl
    | ok p =>
      obtain ⟨n, f⟩ := p
      show parse_device_filters rest (nth + 1) (IndexMap.insert acc n f) = _
      rw [ih]
      cases parse_df_entries rest (nth + 1) with
      | error e => rfl
      | ok es => rfl

theorem parse_virtual_devices_eq (items : List Toml) (nth : Nat)
    (acc : List (String × VirtualDevice)) :
    parse_virtual_devices items nth acc =
      (parse_vd_entries items nth).map
        (fun es => es.foldl (fun m e => IndexMap.insert m e.1 e.2) acc) := by
  induction items generalizing nth acc with
  | nil => rfl
  | cons item rest ih =>
    rw [parse_virtual_devices, parse_vd_entries]
    cases parse_virtual_device_entry nth item with
    | error e => rfl
    | ok p =>
      obtain ⟨n, v⟩ := p
      show parse_virtual_devices rest (nth + 1) (IndexMap.insert acc n v) = _
      rw [ih]
      cases parse_vd_entries rest (nth + 1) with
      | error e => rfl
      | ok es => rfl

theorem parse_scripts_eq (items : List Toml) (nth : Nat) (acc : List Script) :
    parse_scripts items nth acc =
      (parse_sc_entries items nth).map (fun es => acc ++ es) := by
  induction items generalizing nth acc with
  | nil => simp [parse_scripts, parse_sc_entries, Except.map]
  | cons item rest ih =>
    rw [parse_scripts, parse_sc_entries]
    cases parse_script_entry nth item with
    | error e => rfl
    | ok s =>
      show parse_scripts rest (nth + 1) (acc ++ [s]) = _
      rw [ih]
      cases parse_sc_entries rest (nth + 1) with
      | error e => rfl
      | ok es => simp [Except.map]

theorem parse_df_entries_append (xs ys : List Toml) (nth : Nat) :
    parse_df_entries (xs ++ ys) nth =
      match parse_df_entries xs nth with
      | .error e => .error e
      | .ok a =>
        match parse_df_entries ys (nth + xs.length) with
        | .error e => .error e
        | .ok b => .ok (a ++ b) := by
  induction xs generalizing nth with
  | nil =>
    rw [List.nil_append]
    simp only [parse_df_entries, List.length_nil, Nat.add_zero]
    cases parse_df_entries ys nth <;> rfl
  | cons x xs ih =>
    rw [List.cons_append, parse_df_entries, parse_df_entries]
    cases parse_device_filter_entry nth x with
    | error e => rfl
    | ok p =>
      rw [ih (nth + 1)]
      have harith : nth + 1 + xs.length = nth + (x :: xs).length := by
        simp [List.length_cons]; omega
      rw [harith]
      cases parse_df_entries xs (nth + 1) with
      | error e => rfl
      | ok a =>
        cases parse_df_entries ys (nth + (x :: xs).length) with
        | error e => rfl
        | ok b => rfl

theorem parse_df_entries_mem (items : List Toml) (nth : Nat)
    (es : List (String × DeviceFilter)) (h : parse_df_entries items nth = .ok es) :
    ∀ e ∈ es, ∃ y ∈ items, ∃ j, parse_device_filter_entry j y = .ok e := by
  induction items generalizing nth es with
  | nil =>
    rw [parse_df_entries] at h
    cases h
    intro e he
    exact absurd he (List.not_mem_nil e)
  | cons item rest ih =>
    rw [parse_df_entries] at h
    cases hp : parse_device_filter_entry nth item with
    | error e => rw [hp] at h; exact Except.noConfusion h
    | ok p =>
      rw [hp] at h
      cases hr : parse_df_entries rest (nth + 1) with
      | error e => rw [hr] at h; exact Except.noConfusion h
      | ok es2 =>
        rw [hr] at h
        cases h
        intro e he
        rcases List.mem_cons.mp he with he1 | he2
        · exact ⟨item, List.mem_cons_self _ _, nth, he1 ▸ hp⟩
        · obtain ⟨y, hy, j, hj⟩ := ih (nth + 1) es2 hr e he2
          exact ⟨y, List.mem_cons_of_mem _ hy, j, hj⟩

theorem load_sections_no_df (entries : List (String × Toml)) (st st' : LoadState)
    (hk : ∀ kv ∈ entries, kv.1 ≠ "device-filter")
    (h : load_sections entries st = .ok st') :
    st'.device_filters = st.device_filters := by
  induction entries generalizing st with
  | nil => rw [load_sections] at h; cases h; rfl
  | cons kv rest ih =>
    obtain ⟨k, item⟩ := kv
    have hk1 : k ≠ "device-filter" := hk (k, item) (List.mem_cons_self _ _)
    rw [load_sections, if_neg hk1] at h
    by_cases h2 : k = "virtual-device"
    · rw [if_pos h2] at h
      split at h
      · exact Except.noConfusion h
      · split at h
        · exact Except.noConfusion h
        · have hrec := ih _ (fun x hx => hk x (List.mem_cons_of_mem _ hx)) h
          exact hrec
    · rw [if_neg h2] at h
      by_cases h3 : k = "script"
      · rw [if_pos h3] at h
        split at h
        · exact Except.noConfusion h
        · split at h
          · exact Except.noConfusion h
          · have hrec := ih _ (fun x hx => hk x (List.mem_cons_of_mem _ hx)) h
            exact hrec
      · rw [if_neg h3] at h
        exact Except.noConfusion h

theorem load_sections_no_vd (entries : List (String × Toml)) (st st' : LoadState)
    (hk : ∀ kv ∈ entries, kv.1 ≠ "virtual-device")
    (h : load_sections entries st = .ok st') :
    st'.virtual_devices = st.virtual_devices := by
  induction entries generalizing st with
  | nil => rw [load_sections] at h; cases h; rfl
  | cons kv rest ih =>
    obtain ⟨k, item⟩ := kv
    have hk1 : k ≠ "virtual-device" := hk (k, item) (List.mem_cons_self _ _)
    rw [load_sections] at h
    by_cases h2 : k = "device-filter"
    · rw [if_pos h2] at h
      split at h
      · exact Except.noConfusion h
      · split at h
        · exact Except.noConfusion h
        · have hrec := ih _ (fun x hx => hk x (List.mem_cons_of_mem _ hx)) h
          exact hrec
    · rw [if_neg h2, if_neg hk1] at h
      by_cases h3 : k = "script"
      · rw [if_pos h3] at h
        split at h
        · exact Except.noConfusion h
        · split at h
          · exact Except.noConfusion h
          · have hrec := ih _ (fun x hx => hk x (List.mem_cons_of_mem _ hx)) h
            exact hrec
      · rw [if_neg h3] at h
        exact Except.noConfusion h

theorem load_sections_no_sc (entries : List (String × Toml)) (st st' : LoadState)
    (hk : ∀ kv ∈ entries, kv.1 ≠ "script")
    (h : load_sections entries st = .ok st') :
    st'.scripts = st.scripts := by
  induction entries generalizing st with
  | nil => rw [load_sections] at h; cases h; rfl
  | cons kv rest ih =>
    obtain ⟨k, item⟩ := kv
    have hk1 : k ≠ "script" := hk (k, item) (List.mem_cons_self _ _)
    rw [load_sections] at h
    by_cases h2 : k = "device-filter"
    · rw [if_pos h2] at h
      split at h
      · exact Except.noConfusion h
      · split at h
        · exact Except.noConfusion h
        · have hrec := ih _ (fun x hx => hk x (List.mem_cons_of_mem _ hx)) h
          exact hrec
    · rw [if_neg h2] at h
      by_cases h3 : k = "virtual-device"
      · rw [if_pos h3] at h
        split at h
        · exact Except.noConfusion h
        · split at h
          · exact Except.noConfusion h
          · have hrec := ih _ (fun x hx => hk x (List.mem_cons_of_mem _ hx)) h
            exact hrec
      · rw [if_neg h3, if_neg hk1] at h
        exact Except.noConfusion h

theorem load_sections_df_section (as bs : List (String × Toml)) (items : List Toml)
    (st st' : LoadState)
    (ha : ∀ kv ∈ as, kv.1 ≠ "device-filter") (hb : ∀ kv ∈ bs, kv.1 ≠ "device-filter")
    (h : load_sections (as ++ ("device-filter", Toml.array items) :: bs) st = .ok st') :
    parse_device_filters items 0 st.device_filters = .ok st'.device_filters := by
  induction as generalizing st with
  | nil =>
    rw [List.nil_append, load_sections, if_pos rfl] at h
    split at h
    · rename_i heq
      exact absurd heq (by simp [Toml.as_array])
    · rename_i items2 heq
      simp only [Toml.as_array, Option.some.injEq] at heq
      subst heq
      split at h
      · exact Except.noConfusion h
      · rename_i df hp
        have hdone := load_sections_no_df bs _ st' hb h
        rw [hp]
        exact congrArg Except.ok hdone.symm
  | cons a rest ih =>
    obtain ⟨k, item⟩ := a
    have hk1 : k ≠ "device-filter" := ha (k, item) (List.mem_cons_self _ _)
    rw [List.cons_append, load_sections, if_neg hk1] at h
    by_cases h2 : k = "virtual-device"
    · rw [if_pos h2] at h
      split at h
      · exact Except.noConfusion h
      · split at h
        · exact Except.noConfusion h
        · have hrec := ih _ (fun x hx => ha x (List.mem_cons_of_mem _ hx)) h
          exact hrec
    · rw [if_neg h2] at h
      by_cases h3 : k = "script"
      · rw [if_pos h3] at h
        split at h
        · exact Except.noConfusion h
        · split at h
          · exact Except.noConfusion h
          · have hrec := ih _ (fun x hx => ha x (List.mem_cons_of_mem _ hx)) h
            exact hrec
      · rw [if_neg h3] at h
        exact Except.noConfusion h

theorem load_sections_vd_section (as bs : List (String × Toml)) (items : List Toml)
    (st st' : LoadState)
    (ha : ∀ kv ∈ as, kv.1 ≠ "virtual-device") (hb : ∀ kv ∈ bs, kv.1 ≠ "virtual-device")
    (h : load_sections (as ++ ("virtual-device", Toml.array items) :: bs) st = .ok st') :
    parse_virtual_devices items 0 st.virtual_devices = .ok st'.virtual_devices := by
  induction as generalizing st with
  | nil =>
    rw [List.nil_append, load_sections] at h
    rw [if_neg (by decide : ¬("virtual-device" : String) = "device-filter")] at h
    rw [if_pos rfl] at h
    split at h
    · rename_i heq
      exact absurd heq (by simp [Toml.as_array])
    · rename_i items2 heq
      simp only [Toml.as_array, Option.some.injEq] at heq
      subst heq
      split at h
      · exact Except.noConfusion h
      · rename_i vd hp
        have hdone := load_sections_no_vd bs _ st' hb h
        rw [hp]
        exact congrArg Except.ok hdone.symm
  | cons a rest ih =>
    obtain ⟨k, item⟩ := a
    have hk1 : k ≠ "virtual-device" := ha (k, item) (List.mem_cons_self _ _)
    rw [List.cons_append, load_sections] at h
    by_cases h2 : k = "device-filter"
    · rw [if_pos h2] at h
      split at h
      · exact Except.noConfusion h
      · split at h
        · exact Except.noConfusion h
        · have hrec := ih _ (fun x hx => ha x (List.mem_cons_of_mem _ hx)) h
          exact hrec
    · rw [if_neg h2, if_neg hk1] at h
      by_cases h3 : k = "script"
      · rw [if_pos h3] at h
        split at h
        · exact Except.noConfusion h
        · split at h
          · exact Except.noConfusion h
          · have hrec := ih _ (fun x hx => ha x (List.mem_cons_of_mem _ hx)) h
            exact hrec
      · rw [if_neg h3] at h
        exact Except.noConfusion h

theorem load_sections_sc_section (as bs : List (String × Toml)) (items : List Toml)
    (st st' : LoadState)
    (ha : ∀ kv ∈ as, kv.1 ≠ "script") (hb : ∀ kv ∈ bs, kv.1 ≠ "script")
    (h : load_sections (as ++ ("script", Toml.array items) :: bs) st = .ok st') :
    parse_scripts items 0 st.scripts = .ok st'.scripts := by
  induction as generalizing st with
  | nil =>
    rw [List.nil_append, load_sections] at h
    rw [if_neg (by decide : ¬("script" : String) = "device-filter")] at h
    rw [if_neg (by decide : ¬("script" : String) = "virtual-device")] at h
    rw [if_pos rfl] at h
    split at h
    · rename_i heq
      exact absurd heq (by simp [Toml.as_array])
    · rename_i items2 heq
      simp only [Toml.as_array, Option.some.injEq] at heq
      subst heq
      split at h
      · exact Except.noConfusion h
      · rename_i sc hp
        have hdone := load_sections_no_sc bs _ st' hb h
        rw [hp]
        exact congrArg Except.ok hdone.symm
  | cons a rest ih =>
    obtain ⟨k, item⟩ := a
    have hk1 : k ≠ "script" := ha (k, item) (List.mem_cons_self _ _)
    rw [List.cons_append, load_sections] at h
    by_cases h2 : k = "device-filter"
    · rw [if_pos h2] at h
      split at h
      · exact Except.noConfusion h
      · split at h
        · exact Except.noConfusion h
        · have hrec := ih _ (fun x hx => ha x (List.mem_cons_of_mem _ hx)) h
          exact hrec
    · rw [if_neg h2] at h
      by_cases h3 : k = "virtual-device"
      · rw [if_pos h3] at h
        split at h
        · exact Except.noConfusion h
        · split at h
          · exact Except.noConfusion h
          · have hrec := ih _ (fun x hx => ha x (List.mem_cons_of_mem _ hx)) h
            exact hrec
      · rw [if_neg h3, if_neg hk1] at h
        exact Except.noConfusion h

theorem validate_scripts_ok_iff (df : List (String × DeviceFilter)) (scripts : List Script) :
    validate_scripts df scripts = .ok () ↔
      ∀ s ∈ scripts, IndexMap.contains_key df s.device = true := by
  induction scripts with
  | nil => simp [validate_scripts]
  | cons s rest ih =>
    rw [validate_scripts]
    by_cases h : IndexMap.contains_key df s.device = true
    · simp [h, ih]
    · simp [h]

theorem validate_vds_ok_iff (df : List (String × DeviceFilter))
    (vds : List (String × VirtualDevice)) :
    validate_virtual_devices df vds = .ok () ↔
      ∀ kv ∈ vds, IndexMap.contains_key df kv.1 = false ∧
        (∀ t, kv.2.redirect_force_feedback_to = some t →
          IndexMap.contains_key df t = true) := by
  induction vds with
  | nil => simp [validate_virtual_devices]
  | cons kv rest ih =>
    obtain ⟨n, v⟩ := kv
    rw [validate_virtual_devices]
    by_cases h : IndexMap.contains_key df n = true
    · simp [h]
    · have hfalse : IndexMap.contains_key df n = false := by
        revert h; cases IndexMap.contains_key df n <;> simp
      rw [if_neg h]
      cases hr : v.redirect_force_feedback_to with
      | none => simp [ih, List.forall_mem_cons, hfalse, hr]
      | some t =>
        by_cases ht : IndexMap.contains_key df t = true
        · simp only [ht, Bool.not_true]
          simp [ih, List.forall_mem_cons, hfalse, hr, ht]
        · have htf : IndexMap.contains_key df t = false := by
            revert ht; cases IndexMap.contains_key df t <;> simp
          simp only [htf, Bool.not_false]
          simp [List.forall_mem_cons, hr, htf]

theorem validate_vds_first_collision (pre post : List (String × VirtualDevice))
    (n : String) (v : VirtualDevice) (df : List (String × DeviceFilter))
    (hpre : ∀ kv ∈ pre, IndexMap.contains_key df kv.1 = false ∧
      (∀ t, kv.2.redirect_force_feedback_to = some t → IndexMap.contains_key df t = true))
    (hn : IndexMap.contains_key df n = true) :
    validate_virtual_devices df (pre ++ (n, v) :: post) =
      .error ("same name used as a device filter and a virtual device: \"" ++ n ++ "\"") := by
  induction pre with
  | nil =>
    rw [List.nil_append, validate_virtual_devices, if_pos hn]
  | cons kv rest ih =>
    obtain ⟨n2, v2⟩ := kv
    have h1 := (hpre (n2, v2) (List.mem_cons_self _ _)).1
    have h2 := (hpre (n2, v2) (List.mem_cons_self _ _)).2
    rw [List.cons_append, validate_virtual_devices]
    rw [if_neg (by rw [h1]; exact Bool.noConfusion)]
    cases hr : v2.redirect_force_feedback_to with
    | none => exact ih (fun x hx => hpre x (List.mem_cons_of_mem _ hx))
    | some t =>
      have ht := h2 t hr
      simp only [ht, Bool.not_true, Bool.false_eq_true, if_false]
      exact ih (fun x hx => hpre x (List.mem_cons_of_mem _ hx))

theorem load_from_table_inv (tbl : List (String × Toml)) (cfg : Config)
    (h : load_from_table tbl = .ok cfg) :
    ∃ st, load_sections tbl LoadState.init = .ok st ∧
      validate_scripts st.device_filters st.scripts = .ok () ∧
      validate_virtual_devices st.device_filters st.virtual_devices = .ok () ∧
      cfg.device_filters = st.device_filters ∧
      cfg.virtual_devices = st.virtual_devices ∧
      cfg.scripts = st.scripts := by
  rw [load_from_table] at h
  split at h
  · exact Except.noConfusion h
  · rename_i st hls
    split at h
    · exact Except.noConfusion h
    · rename_i u hvs
      split at h
      · exact Except.noConfusion h
      · rename_i u2 hvv
        cases h
        cases u
        cases u2
        exact ⟨st, hls, hvs, hvv, rfl, rfl, rfl⟩

theorem load_from_table_build (tbl : List (String × Toml)) (st : LoadState)
    (hls : load_sections tbl LoadState.init = .ok st)
    (hvs : validate_scripts st.device_filters st.scripts = .ok ())
    (hvv : validate_virtual_devices st.device_filters st.virtual_devices = .ok ()) :
    load_from_table tbl = .ok ⟨st.device_filters, st.virtual_devices, st.scripts⟩ := by
  simp only [load_from_table, hls, hvs, hvv]

theorem abs_step_keeps_initial (nth : Nat) (axis_name : String) (acc : AbsAcc) (k : String)
    (item : Toml) (acc2 : AbsAcc)
    (h : abs_apply_subproperty nth axis_name acc k item = .ok acc2)
    (hk : k ≠ "initial-value") : acc2.initial_value = acc.initial_value := by
  rw [abs_apply_subproperty] at h
  repeat' split at h
  all_goals first
    | exact Except.noConfusion h
    | (cases h; rfl)
    | exact absurd (by assumption) hk

theorem abs_step_keeps_deadzone (nth : Nat) (axis_name : String) (acc : AbsAcc) (k : String)
    (item : Toml) (acc2 : AbsAcc)
    (h : abs_apply_subproperty nth axis_name acc k item = .ok acc2)
    (hk : k ≠ "deadzone") : acc2.deadzone = acc.deadzone := by
  rw [abs_apply_subproperty] at h
  repeat' split at h
  all_goals first
    | exact Except.noConfusion h
    | (cases h; rfl)

theorem abs_step_keeps_noise (nth : Nat) (axis_name : String) (acc : AbsAcc) (k : String)
    (item : Toml) (acc2 : AbsAcc)
    (h : abs_apply_subproperty nth axis_name acc k item = .ok acc2)
    (hk : k ≠ "noise-threshold") : acc2.noise_threshold = acc.noise_threshold := by
  rw [abs_apply_subproperty] at h
  repeat' split at h
  all_goals first
    | exact Except.noConfusion h
    | (cases h; rfl)

theorem abs_step_keeps_resolution (nth : Nat) (axis_name : String) (acc : AbsAcc) (k : String)
    (item : Toml) (acc2 : AbsAcc)
    (h : abs_apply_subproperty nth axis_name acc k item = .ok acc2)
    (hk : k ≠ "resolution") : acc2.resolution = acc.resolution := by
  rw [abs_apply_subproperty] at h
  repeat' split at h
  all_goals first
    | exact Except.noConfusion h
    | (cases h; rfl)

theorem abs_fold_keeps (P : AbsAcc → Option Int) (key : String)
    (hstep : ∀ nth axis_name acc k item acc2,
      abs_apply_subproperty nth axis_name acc k item = .ok acc2 → k ≠ key → P acc2 = P acc)
    (nth : Nat) (axis_name : String) (tbl : List (String × Toml)) (acc acc2 : AbsAcc)
    (h : tbl.foldlM (fun a kv => abs_apply_subproperty nth axis_name a kv.1 kv.2) acc =
      .ok acc2)
    (hk : ∀ kv ∈ tbl, kv.1 ≠ key) :
    P acc2 = P acc := by
  induction tbl generalizing acc with
  | nil =>
    replace h : (Except.ok acc : Except String AbsAcc) = Except.ok acc2 := h
    cases h
    rfl
  | cons kv rest ih =>
    rw [List.foldlM_cons] at h
    cases hstp : abs_apply_subproperty nth axis_name acc kv.1 kv.2 with
    | error e =>
      rw [hstp] at h
      exact Except.noConfusion h
    | ok a1 =>
      rw [hstp] at h
      replace h : rest.foldlM (fun a kv => abs_apply_subproperty nth axis_name a kv.1 kv.2) a1 =
        Except.ok acc2 := h
      rw [ih a1 h (fun x hx => hk x (List.mem_cons_of_mem _ hx))]
      exact hstep nth axis_name acc kv.1 kv.2 a1 hstp (hk kv (List.mem_cons_self _ _))

/-- C9: an `abs` axis sub-table with no `initial-value` key produces a record
whose initial value equals its minimum; with only `minimum`/`maximum` keys the
deadzone, noise threshold and resolution default to 0 as well; concretely, a
sub-table of just `minimum = 0, maximum = 255` yields the record
`(0, 0, 255, 0, 0, 0)`. -/
theorem c9_abs_defaults :
    (∀ nth axis_name tbl bit,
      parse_abs_axis nth axis_name (Toml.table tbl) = .ok bit →
      (∀ kv ∈ tbl, kv.1 ≠ "initial-value") →
      bit.initial_value = bit.minimum) ∧
    (∀ nth axis_name tbl bit,
      parse_abs_axis nth axis_name (Toml.table tbl) = .ok bit →
      (∀ kv ∈ tbl, kv.1 = "minimum" ∨ kv.1 = "min" ∨ kv.1 = "maximum" ∨ kv.1 = "max") →
      bit.initial_value = bit.minimum ∧ bit.deadzone = 0 ∧
        bit.noise_threshold = 0 ∧ bit.resolution = 0) ∧
    parse_abs_axis 0 "x" (Toml.table [("minimum", Toml.int 0), ("maximum", Toml.int 255)]) =
      .ok ⟨AbsoluteAxis.x, 0, 0, 255, 0, 0, 0⟩ := by
  refine ⟨?_, ?_, by rfl⟩
  · intro nth axis_name tbl bit h hk
    rw [parse_abs_axis] at h
    split at h
    · exact Except.noConfusion h
    · split at h
      · rename_i heq
        exact absurd heq (by simp [Toml.as_table])
      · rename_i tbl2 heq
        simp only [Toml.as_table, Option.some.injEq] at heq
        subst heq
        split at h
        · exact Except.noConfusion h
        · rename_i acc hfold
          split at h
          · exact Except.noConfusion h
          · rename_i minimum hmin
            split at h
            · exact Except.noConfusion h
            · rename_i maximum hmax
              cases h
              have hin : acc.initial_value = AbsAcc.init.initial_value :=
                abs_fold_keeps (fun a => a.initial_value) "initial-value"
                  (fun n2 a2 c2 k2 i2 d2 hs hne => abs_step_keeps_initial n2 a2 c2 k2 i2 d2 hs hne)
                  nth axis_name tbl AbsAcc.init acc hfold hk
              show acc.initial_value.getD minimum = minimum
              rw [hin]
              rfl
  · intro nth axis_name tbl bit h hk
    rw [parse_abs_axis] at h
    split at h
    · exact Except.noConfusion h
    · split at h
      · rename_i heq
        exact absurd heq (by simp [Toml.as_table])
      · rename_i tbl2 heq
        simp only [Toml.as_table, Option.some.injEq] at heq
        subst heq
        split at h
        · exact Except.noConfusion h
        · rename_i acc hfold
          split at h
          · exact Except.noConfusion h
          · rename_i minimum hmin
            split at h
            · exact Except.noConfusion h
            · rename_i maximum hmax
              cases h
              have hknames : ∀ fld : String,
                  fld ≠ "minimum" → fld ≠ "min" → fld ≠ "maximum" → fld ≠ "max" →
                  ∀ kv ∈ tbl, kv.1 ≠ fld := by
                intro fld f1 f2 f3 f4 kv hkv hc
                rcases hk kv hkv with h1 | h1 | h1 | h1 <;> rw [hc] at h1
                · exact f1 h1
                · exact f2 h1
                · exact f3 h1
                · exact f4 h1
              have hin : acc.initial_value = AbsAcc.init.initial_value :=
                abs_fold_keeps (fun a => a.initial_value) "initial-value"
                  (fun n2 a2 c2 k2 i2 d2 hs hne => abs_step_keeps_initial n2 a2 c2 k2 i2 d2 hs hne)
                  nth axis_name tbl AbsAcc.init acc hfold
                  (hknames "initial-value" (by decide) (by decide) (by decide) (by decide))
              have hdz : acc.deadzone = AbsAcc.init.deadzone :=
                abs_fold_keeps (fun a => a.deadzone) "deadzone"
                  (fun n2 a2 c2 k2 i2 d2 hs hne => abs_step_keeps_deadzone n2 a2 c2 k2 i2 d2 hs hne)
                  nth axis_name tbl AbsAcc.init acc hfold
                  (hknames "deadzone" (by decide) (by decide) (by decide) (by decide))
              have hnz : acc.noise_threshold = AbsAcc.init.noise_threshold :=
                abs_fold_keeps (fun a => a.noise_threshold) "noise-threshold"
                  (fun n2 a2 c2 k2 i2 d2 hs hne => abs_step_keeps_noise n2 a2 c2 k2 i2 d2 hs hne)
                  nth axis_name tbl AbsAcc.init acc hfold
                  (hknames "noise-threshold" (by decide) (by decide) (by decide) (by decide))
              have hrz : acc.resolution = AbsAcc.init.resolution :=
                abs_fold_keeps (fun a => a.resolution) "resolution"
                  (fun n2 a2 c2 k2 i2 d2 hs hne =>
                    abs_step_keeps_resolution n2 a2 c2 k2 i2 d2 hs hne)
                  nth axis_name tbl AbsAcc.init acc hfold
                  (hknames "resolution" (by decide) (by decide) (by decide) (by decide))
              refine ⟨?_, ?_, ?_, ?_⟩
              · show acc.initial_value.getD minimum = minimum
                rw [hin]
                rfl
              · show acc.deadzone.getD 0 = 0
                rw [hdz]
                rfl
              · show acc.noise_threshold.getD 0 = 0
                rw [hnz]
                rfl
              · show acc.resolution.getD 0 = 0
                rw [hrz]
                rfl

/-- Witness for C9: the default rules applied to concrete sub-tables using the
`min`/`max` key spellings. -/
theorem c9_abs_defaults_witness :
    (⟨AbsoluteAxis.y, 5, 5, 9, 0, 0, 0⟩ : AbsoluteAxisBit).initial_value =
      (⟨AbsoluteAxis.y, 5, 5, 9, 0, 0, 0⟩ : AbsoluteAxisBit).minimum ∧
    ((⟨AbsoluteAxis.z, 2, 2, 7, 0, 0, 0⟩ : AbsoluteAxisBit).initial_value =
      (⟨AbsoluteAxis.z, 2, 2, 7, 0, 0, 0⟩ : AbsoluteAxisBit).minimum ∧
      (⟨AbsoluteAxis.z, 2, 2, 7, 0, 0, 0⟩ : AbsoluteAxisBit).deadzone = 0 ∧
      (⟨AbsoluteAxis.z, 2, 2, 7, 0, 0, 0⟩ : AbsoluteAxisBit).noise_threshold = 0 ∧
      (⟨AbsoluteAxis.z, 2, 2, 7, 0, 0, 0⟩ : AbsoluteAxisBit).resolution = 0) :=
  ⟨c9_abs_defaults.1 1 "y" [("min", Toml.int 5), ("max", Toml.int 9)]
      ⟨AbsoluteAxis.y, 5, 5, 9, 0, 0, 0⟩ rfl (by decide),
   c9_abs_defaults.2.1 2 "z" [("min", Toml.int 2), ("max", Toml.int 7)]
      ⟨AbsoluteAxis.z, 2, 2, 7, 0, 0, 0⟩ rfl (by decide)⟩

/-- Counterexample to C1: `load_from_file` accepts `c1doc`, and the resulting
virtual device holds two `AbsoluteAxisBit` records whose axis codes are both
numeric axis 0 — the claimed one-record-per-axis-code invariant fails when one
`abs` table spells the same axis two ways. -/
theorem c1_duplicate_axis_code_counterexample :
    load_from_doc c1doc = some (Except.ok c1cfg) ∧
    Option.map (fun v => v.abs_bits.map AbsoluteAxisBit.axis)
        (IndexMap.get? c1cfg.virtual_devices "V") =
      some [AbsoluteAxis.other 0, AbsoluteAxis.other 0] :=
  ⟨rfl, rfl⟩

/-- C1 (amended): one `abs` table produces exactly one calibration record per
table key, in key order; distinct keys that resolve to the same numeric axis
code each contribute their own record, so records with equal axis codes can
coexist (see the counterexample). -/
theorem c1_one_record_per_key :
    ∀ nth entries bits, parse_abs_table nth entries = .ok bits →
      bits.length = entries.length ∧
      ∀ i (hi : i < entries.length) (hb : i < bits.length),
        parse_abs_axis nth (entries.get ⟨i, hi⟩).1 (entries.get ⟨i, hi⟩).2 =
          .ok (bits.get ⟨i, hb⟩) := by
  intro nth entries
  induction entries with
  | nil =>
    intro bits h
    rw [parse_abs_table] at h
    cases h
    exact ⟨rfl, fun i hi hb => absurd hi (Nat.not_lt_zero i)⟩
  | cons kv rest ih =>
    obtain ⟨axis_name, item⟩ := kv
    intro bits h
    rw [parse_abs_table] at h
    split at h
    · exact Except.noConfusion h
    · rename_i bit hbit
      split at h
      · exact Except.noConfusion h
      · rename_i bits2 hbits
        cases h
        obtain ⟨hlen, hcorr⟩ := ih bits2 hbits
        refine ⟨by simp [hlen], ?_⟩
        intro i hi hb
        cases i with
        | zero => exact hbit
        | succ j => exact hcorr j (Nat.lt_of_succ_lt_succ hi) (Nat.lt_of_succ_lt_succ hb)

/-- Witness for C1: the per-key rule applied to a concrete one-key table. -/
theorem c1_one_record_per_key_witness :
    parse_abs_table 0 [("0", Toml.table [("minimum", Toml.int 0), ("maximum", Toml.int 255)])] =
      .ok [⟨AbsoluteAxis.other 0, 0, 0, 255, 0, 0, 0⟩] ∧
    parse_abs_axis 0 "0" (Toml.table [("minimum", Toml.int 0), ("maximum", Toml.int 255)]) =
      .ok ⟨AbsoluteAxis.other 0, 0, 0, 255, 0, 0, 0⟩ := by
  have h := c1_one_record_per_key 0
    [("0", Toml.table [("minimum", Toml.int 0), ("maximum", Toml.int 255)])]
    [⟨AbsoluteAxis.other 0, 0, 0, 255, 0, 0, 0⟩] rfl
  exact ⟨rfl, h.2 0 (by decide) (by decide)⟩

/-- C5: when several entries of the `device-filter` section resolve to the same
internal name, the load succeeds and the mapping holds the `DeviceFilter` of
the last such entry (the entry keeps the position of the first occurrence, and
every field comes from the later entry).  Concretely, a document with two
entries named `X` loads to a mapping whose sole entry is the later filter. -/
theorem c5_last_write_wins :
    (∀ (xs ys : List Toml) (e : Toml) (nth : Nat)
      (acc m : List (String × DeviceFilter)) (n : String) (f : DeviceFilter),
      parse_device_filter_entry (nth + xs.length) e = .ok (n, f) →
      (∀ y ∈ ys, ∀ i n2 f2, parse_device_filter_entry i y = .ok (n2, f2) → n2 ≠ n) →
      parse_device_filters (xs ++ e :: ys) nth acc = .ok m →
      IndexMap.get? m n = some f) ∧
    load_from_doc c5doc = some (Except.ok c5cfg) ∧
    IndexMap.get? c5cfg.device_filters "X" = some c5later := by
  refine ⟨?_, rfl, rfl⟩
  intro xs ys e nth acc m n f he hys hm
  rw [parse_device_filters_eq] at hm
  cases hpe : parse_df_entries (xs ++ e :: ys) nth with
  | error er =>
    rw [hpe] at hm
    exact Except.noConfusion hm
  | ok es =>
    rw [hpe] at hm
    replace hm : Except.ok (es.foldl (fun m e => IndexMap.insert m e.1 e.2) acc) =
      Except.ok m := hm
    cases hm
    rw [parse_df_entries_append] at hpe
    split at hpe
    · exact Except.noConfusion hpe
    · rename_i a ha
      split at hpe
      · exact Except.noConfusion hpe
      · rename_i b hb
        cases hpe
        rw [parse_df_entries] at hb
        rw [he] at hb
        replace hb :
            (match parse_df_entries ys (nth + xs.length + 1) with
              | Except.error e2 => Except.error e2
              | Except.ok es2 => Except.ok ((n, f) :: es2)) = Except.ok b := hb
        split at hb
        · exact Except.noConfusion hb
        · rename_i es2 hes2
          cases hb
          have hnotin : ∀ e2 ∈ es2, e2.1 ≠ n := by
            intro e2 he2
            obtain ⟨y, hy, j, hj⟩ := parse_df_entries_mem ys _ es2 hes2 e2 he2
            exact hys y hy j e2.1 e2.2 hj
          exact fold_insert_last a es2 n f acc hnotin

/-- Witness for C5: the general last-write-wins rule applied to the concrete
two-entry section of `c5doc`. -/
theorem c5_last_write_wins_witness :
    IndexMap.get? [("X", c5later)] "X" = some c5later :=
  c5_last_write_wins.1 [c5e1] [] c5e2 0 [] [("X", c5later)] "X" c5later rfl
    (fun y hy => absurd hy (List.not_mem_nil y)) rfl

/-- C7: in every accepted document each script's `device` names an existing
device filter; a document whose script says `device = "nosuch"` fails with the
diagnostic naming `nosuch`, and no `Config` is returned. -/
theorem c7_script_reference_check :
    (∀ tbl cfg, load_from_table tbl = .ok cfg →
      ∀ s ∈ cfg.scripts, IndexMap.contains_key cfg.device_filters s.device = true) ∧
    load_from_table c7bad_tbl =
      .error "[[script]] refers to a non-existing device filter: \"nosuch\"" := by
  constructor
  · intro tbl cfg h s hs
    obtain ⟨st, hls, hvs, hvv, hdf, hvd, hsc⟩ := load_from_table_inv tbl cfg h
    rw [hdf]
    exact (validate_scripts_ok_iff st.device_filters st.scripts).mp hvs s
      (by rw [← hsc]; exact hs)
  · rfl

/-- Witness for C7: the general direction applied to the accepted document
`c7good_tbl` and its one script. -/
theorem c7_script_reference_check_witness :
    IndexMap.contains_key c7good_cfg.device_filters "F" = true :=
  c7_script_reference_check.1 c7good_tbl c7good_cfg rfl ⟨"F", "body"⟩
    (List.mem_cons_self _ _)

/-- C8: in every accepted document the virtual-device names are disjoint from
the device-filter names; a document declaring `X` as both fails with the
name-collision diagnostic naming `X`. -/
theorem c8_name_collision_check :
    (∀ tbl cfg, load_from_table tbl = .ok cfg →
      ∀ kv ∈ cfg.virtual_devices,
        IndexMap.contains_key cfg.device_filters kv.1 = false) ∧
    load_from_table c8bad_tbl =
      .error "same name used as a device filter and a virtual device: \"X\"" := by
  constructor
  · intro tbl cfg h kv hkv
    obtain ⟨st, hls, hvs, hvv, hdf, hvd, hsc⟩ := load_from_table_inv tbl cfg h
    rw [hdf]
    exact ((validate_vds_ok_iff st.device_filters st.virtual_devices).mp hvv kv
      (by rw [← hvd]; exact hkv)).1
  · rfl

/-- Witness for C8: the disjointness direction applied to the accepted
document `c8good_tbl`. -/
theorem c8_name_collision_check_witness :
    IndexMap.contains_key c8good_cfg.device_filters "V" = false :=
  c8_name_collision_check.1 c8good_tbl c8good_cfg rfl ("V", vd_empty)
    (List.mem_cons_self _ _)

/-- Counterexample to C2: `c2doc` contains both a name collision (`X` is a
filter and a virtual device) and a dangling redirect target (`nosuch`), yet
the load reports the redirect error, not the name-collision error, because
the dangling redirect sits on an earlier virtual device. -/
theorem c2_validation_order_counterexample :
    load_sections c2tbl LoadState.init = Except.ok c2st ∧
    IndexMap.contains_key c2st.device_filters "X" = true ∧
    (c2st.virtual_devices.map Prod.fst) = ["A", "X"] ∧
    Option.map VirtualDevice.redirect_force_feedback_to
        (IndexMap.get? c2st.virtual_devices "A") = some (some "nosuch") ∧
    IndexMap.contains_key c2st.device_filters "nosuch" = false ∧
    load_from_doc c2doc = some (Except.error c2_redirect_msg) ∧
    c2_redirect_msg ≠ c2_collision_msg :=
  ⟨rfl, rfl, rfl, rfl, rfl, rfl, by decide⟩

/-- C2 (amended): cross-reference validation is fail-fast in iteration order;
for each virtual device in declaration order the name-collision check precedes
that device's redirect-target check, so on the first virtual device that
violates anything, a collision is reported even if that same device also has a
dangling redirect; a dangling redirect on an earlier virtual device wins over
a collision on a later one (see the counterexample); and with zero violations
the fully populated `Config` built from the parsed sections is returned. -/
theorem c2_validation_order_amended :
    (∀ (df : List (String × DeviceFilter)) (pre post : List (String × VirtualDevice))
      (n : String) (v : VirtualDevice),
      (∀ kv ∈ pre, IndexMap.contains_key df kv.1 = false ∧
        (∀ t, kv.2.redirect_force_feedback_to = some t →
          IndexMap.contains_key df t = true)) →
      IndexMap.contains_key df n = true →
      validate_virtual_devices df (pre ++ (n, v) :: post) =
        .error ("same name used as a device filter and a virtual device: \"" ++ n ++ "\"")) ∧
    (∀ tbl st, load_sections tbl LoadState.init = .ok st →
      validate_scripts st.device_filters st.scripts = .ok () →
      validate_virtual_devices st.device_filters st.virtual_devices = .ok () →
      load_from_table tbl = .ok ⟨st.device_filters, st.virtual_devices, st.scripts⟩) :=
  ⟨fun df pre post n v hpre hn => validate_vds_first_collision pre post n v df hpre hn,
   fun tbl st hls hvs hvv => load_from_table_build tbl st hls hvs hvv⟩

/-- Witness for C2: on a single virtual device that both collides and has a
dangling redirect, the collision error is reported; and a violation-free
document loads to its full `Config`. -/
theorem c2_validation_order_amended_witness :
    validate_virtual_devices [("X", df_empty)] [("X", c2vdA)] =
      Except.error "same name used as a device filter and a virtual device: \"X\"" ∧
    load_from_table c8good_tbl = Except.ok ⟨[("F", df_empty)], [("V", vd_empty)], []⟩ :=
  ⟨c2_validation_order_amended.1 [("X", df_empty)] [] [] "X" c2vdA
      (fun kv hkv => absurd hkv (List.not_mem_nil kv)) rfl,
   c2_validation_order_amended.2 c8good_tbl ⟨[("F", df_empty)], [("V", vd_empty)], []⟩
      rfl rfl rfl⟩

/-- C6: for every accepted document, the `device_filters` and
`virtual_devices` mappings iterate exactly in the document order of their
section entries (stated for sections whose internal names are distinct, the
case in which each mapping entry corresponds to one document entry), and
`scripts` is exactly the ordered list of parsed `script` entries. -/
theorem c6_declaration_order :
    ∀ tbl cfg, load_from_table tbl = .ok cfg →
    (∀ as bs dfs dfl,
      tbl = as ++ ("device-filter", Toml.array dfs) :: bs →
      (∀ kv ∈ as, kv.1 ≠ "device-filter") → (∀ kv ∈ bs, kv.1 ≠ "device-filter") →
      parse_df_entries dfs 0 = .ok dfl → (dfl.map Prod.fst).Nodup →
      cfg.device_filters = dfl) ∧
    (∀ as bs vds vdl,
      tbl = as ++ ("virtual-device", Toml.array vds) :: bs →
      (∀ kv ∈ as, kv.1 ≠ "virtual-device") → (∀ kv ∈ bs, kv.1 ≠ "virtual-device") →
      parse_vd_entries vds 0 = .ok vdl → (vdl.map Prod.fst).Nodup →
      cfg.virtual_devices = vdl) ∧
    (∀ as bs scs scl,
      tbl = as ++ ("script", Toml.array scs) :: bs →
      (∀ kv ∈ as, kv.1 ≠ "script") → (∀ kv ∈ bs, kv.1 ≠ "script") →
      parse_sc_entries scs 0 = .ok scl →
      cfg.scripts = scl) := by
  intro tbl cfg h
  obtain ⟨st, hls, hvs, hvv, hdf, hvd, hsc⟩ := load_from_table_inv tbl cfg h
  refine ⟨?_, ?_, ?_⟩
  · intro as bs dfs dfl htbl hano hbno hentries hnd
    subst htbl
    have hsec := load_sections_df_section as bs dfs LoadState.init st hano hbno hls
    rw [parse_device_filters_eq, hentries] at hsec
    replace hsec :
        Except.ok (dfl.foldl (fun m e => IndexMap.insert m e.1 e.2)
          ([] : List (String × DeviceFilter))) = Except.ok st.device_filters := hsec
    have hfold := Except.ok.inj hsec
    rw [fold_insert_fresh dfl [] hnd (fun e he => rfl)] at hfold
    rw [hdf, ← hfold]
    exact (List.nil_append dfl).symm
  · intro as bs vds vdl htbl hano hbno hentries hnd
    subst htbl
    have hsec := load_sections_vd_section as bs vds LoadState.init st hano hbno hls
    rw [parse_virtual_devices_eq, hentries] at hsec
    replace hsec :
        Except.ok (vdl.foldl (fun m e => IndexMap.insert m e.1 e.2)
          ([] : List (String × VirtualDevice))) = Except.ok st.virtual_devices := hsec
    have hfold := Except.ok.inj hsec
    rw [fold_insert_fresh vdl [] hnd (fun e he => rfl)] at hfold
    rw [hvd, ← hfold]
    exact (List.nil_append vdl).symm
  · intro as bs scs scl htbl hano hbno hentries
    subst htbl
    have hsec := load_sections_sc_section as bs scs LoadState.init st hano hbno hls
    rw [parse_scripts_eq, hentries] at hsec
    replace hsec : Except.ok (([] : List Script) ++ scl) = Except.ok st.scripts := hsec
    have hfold := Except.ok.inj hsec
    rw [hsc, ← hfold]
    exact (List.nil_append scl).symm

/-- Witness for C6: the order of the two filters (`B` before `A`), the two
virtual devices (`W` before `V`) and the two scripts survives into the model
exactly as written. -/
theorem c6_declaration_order_witness :
    load_from_table c6tbl = Except.ok c6cfg ∧
    c6cfg.device_filters = [("B", df_empty), ("A", df_empty)] ∧
    c6cfg.virtual_devices = [("W", vd_empty), ("V", vd_empty)] ∧
    c6cfg.scripts = [⟨"B", "s1"⟩, ⟨"A", "s2"⟩] := by
  refine ⟨rfl, ?_, ?_, ?_⟩
  · exact (c6_declaration_order c6tbl c6cfg rfl).1
      [] [("script", Toml.array c6sc_items), ("virtual-device", Toml.array c6vd_items)]
      c6df_items [("B", df_empty), ("A", df_empty)]
      rfl (fun kv hkv => absurd hkv (List.not_mem_nil kv)) (by decide) rfl (by decide)
  · exact (c6_declaration_order c6tbl c6cfg rfl).2.1
      [("device-filter", Toml.array c6df_items), ("script", Toml.array c6sc_items)] []
      c6vd_items [("W", vd_empty), ("V", vd_empty)]
      rfl (by decide) (fun kv hkv => absurd hkv (List.not_mem_nil kv)) rfl (by decide)
  · exact (c6_declaration_order c6tbl c6cfg rfl).2.2
      [("device-filter", Toml.array c6df_items)] [("virtual-device", Toml.array c6vd_items)]
      c6sc_items [⟨"B", "s1"⟩, ⟨"A", "s2"⟩]
      rfl (by decide) (by decide) rfl

/-- C10: on any parsed document whose root value is a table — which the TOML
parser guarantees for every document it accepts — `load_from_file` never hits
the `unwrap` panic: it always returns a result, either a `Config` or an
error. -/
theorem c10_load_total_on_tables :
    ∀ doc : Toml, (∃ t, doc = Toml.table t) → ∃ r, load_from_doc doc = some r := by
  rintro doc ⟨t, rfl⟩
  exact ⟨load_from_table t, rfl⟩

/-- Witness for C10: the empty document. -/
theorem c10_load_total_on_tables_witness :
    (∃ t, Toml.table ([] : List (String × Toml)) = Toml.table t) ∧
    ∃ r, load_from_doc (Toml.table ([] : List (String × Toml))) = some r :=
  ⟨⟨[], rfl⟩, c10_load_total_on_tables (Toml.table []) ⟨[], rfl⟩⟩
